import Mathlib

/-!
Verification development for the GitGang orchestration CLI
(`src/cli.ts`, current implementation version 1.4.7).

The development shallowly embeds the parts of the program that the
specification talks about:

* `Json` / `jsonParse` / `parseFirstJson` — the reviewer-output decision
  extraction (`parseFirstJson` in the source applies the greedy regex
  `/\{[\s\S]*\}/`, i.e. the substring from the first opening brace to the
  last closing brace, and then `JSON.parse`).
* a small git-repository state (`GitState`) together with the
  `applyMergePlan` / `runPostMergeCheckWithRetries` algorithm of the
  MergeEngine;
* the `AgentRunner` supervision state machine (restart budget, backoff,
  heartbeat with error-loop detection, nudging and idle handling) as a
  step function over explicit runner states and asynchronous events;
* the review round `doReview` with its bounded reviewer retries, and the
  post-agent gate of `main` that decides whether the reviewer runs.

External effects (spawning processes, timers, the file system) are
represented by oracles passed in as explicit parameters, and by events fed
to the step functions.
-/

namespace GitGang

/-- The opening-brace character (written via its code point). -/
def lbrace : Char := Char.ofNat 123

/-- The closing-brace character (written via its code point). -/
def rbrace : Char := Char.ofNat 125

/-! ## JSON values and `JSON.parse`

`parseFirstJson` feeds the extracted substring to JavaScript's
`JSON.parse`; we embed a JSON value type and a standard fuel-based
recursive-descent parser for it.  Numbers are stored as a mantissa and a
decimal exponent (`m * 10 ^ e`), which is faithful up to numeric-literal
normalisation and enough for the decision objects the program handles. -/

inductive Json where
  | null : Json
  | bool (b : Bool) : Json
  | num (m : Int) (e : Int) : Json
  | str (s : String) : Json
  | arr (items : List Json) : Json
  | obj (members : List (String × Json)) : Json
deriving Repr

/-- JSON whitespace characters. -/
def isJsonWs (c : Char) : Bool :=
  c == ' ' || c == '\t' || c == '\n' || c == '\r'

/-- Skip JSON whitespace. -/
def skipWs (cs : List Char) : List Char :=
  cs.dropWhile isJsonWs

/-- Value of a hexadecimal digit, if any. -/
def hexVal (c : Char) : Option Nat :=
  if '0' ≤ c ∧ c ≤ '9' then some (c.toNat - 48)
  else if 'a' ≤ c ∧ c ≤ 'f' then some (c.toNat - 87)
  else if 'A' ≤ c ∧ c ≤ 'F' then some (c.toNat - 55)
  else none

/-- Decimal digit test. -/
def isDigitCh (c : Char) : Bool := '0' ≤ c ∧ c ≤ '9'

/-- Numeric value of a digit list (most significant first). -/
def digitsToNat (ds : List Char) : Nat :=
  ds.foldl (fun n c => n * 10 + (c.toNat - 48)) 0

/-- Parse the body of a JSON string literal (the opening quote already
consumed), handling the escape sequences `JSON.parse` accepts. -/
def parseStringBody : Nat → List Char → List Char → Option (String × List Char)
  | 0, _, _ => none
  | _ + 1, [], _ => none
  | fuel + 1, c :: rest, acc =>
    if c == '"' then some (String.mk acc.reverse, rest)
    else if c == '\\' then
      match rest with
      | [] => none
      | e :: rest2 =>
        if e == '"' then parseStringBody fuel rest2 ('"' :: acc)
        else if e == '\\' then parseStringBody fuel rest2 ('\\' :: acc)
        else if e == '/' then parseStringBody fuel rest2 ('/' :: acc)
        else if e == 'b' then parseStringBody fuel rest2 (Char.ofNat 8 :: acc)
        else if e == 'f' then parseStringBody fuel rest2 (Char.ofNat 12 :: acc)
        else if e == 'n' then parseStringBody fuel rest2 ('\n' :: acc)
        else if e == 'r' then parseStringBody fuel rest2 (Char.ofNat 13 :: acc)
        else if e == 't' then parseStringBody fuel rest2 ('\t' :: acc)
        else if e == 'u' then
          match rest2 with
          | h1 :: h2 :: h3 :: h4 :: rest3 =>
            match hexVal h1, hexVal h2, hexVal h3, hexVal h4 with
            | some a, some b, some c3, some d =>
              parseStringBody fuel rest3
                (Char.ofNat (((a * 16 + b) * 16 + c3) * 16 + d) :: acc)
            | _, _, _, _ => none
          | _ => none
        else none
    else if c.toNat < 32 then none
    else parseStringBody fuel rest (c :: acc)

/-- Parse the integer digits of a JSON number (leading-zero rule of the
JSON grammar: a leading `0` must stand alone). -/
def parseIntDigits (cs : List Char) : Option (List Char × List Char) :=
  match cs with
  | [] => none
  | c :: rest =>
    if c == '0' then some ([c], rest)
    else if isDigitCh c then
      let ds := rest.takeWhile isDigitCh
      some (c :: ds, rest.dropWhile isDigitCh)
    else none

/-- Parse an optional exponent part; returns `none` when an exponent
marker is present but malformed. -/
def parseExpPart (cs : List Char) : Option (Bool × List Char × List Char) :=
  match cs with
  | c :: rest =>
    if c == 'e' ∨ c == 'E' then
      let (sgnNeg, body) :=
        match rest with
        | s :: rest2 =>
          if s == '+' then (false, rest2)
          else if s == '-' then (true, rest2)
          else (false, rest)
        | [] => (false, rest)
      let ds := body.takeWhile isDigitCh
      if ds = [] then none
      else some (sgnNeg, ds, body.dropWhile isDigitCh)
    else some (false, [], cs)
  | [] => some (false, [], cs)

/-- Parse a JSON number starting at the current position. -/
def parseNumber (cs : List Char) : Option (Json × List Char) :=
  let (neg, cs1) :=
    match cs with
    | c :: rest => if c == '-' then (true, rest) else (false, cs)
    | [] => (false, cs)
  match parseIntDigits cs1 with
  | none => none
  | some (intDs, cs2) =>
    let fracPart : Option (List Char × List Char) :=
      match cs2 with
      | c :: rest =>
        if c == '.' then
          let ds := rest.takeWhile isDigitCh
          if ds = [] then none else some (ds, rest.dropWhile isDigitCh)
        else some ([], cs2)
      | [] => some ([], cs2)
    match fracPart with
    | none => none
    | some (fracDs, cs3) =>
      match parseExpPart cs3 with
      | none => none
      | some (expNeg, expDs, cs4) =>
        let mantissa : Nat := digitsToNat (intDs ++ fracDs)
        let m : Int := if neg then -(mantissa : Int) else (mantissa : Int)
        let expN : Int :=
          if expNeg then -(digitsToNat expDs : Int) else (digitsToNat expDs : Int)
        some (Json.num m (expN - (fracDs.length : Int)), cs4)

mutual

/-- Parse one JSON value (fuel-based recursive descent). -/
def parseVal : Nat → List Char → Option (Json × List Char)
  | 0, _ => none
  | fuel + 1, cs =>
    match skipWs cs with
    | [] => none
    | c :: rest =>
      if c == '"' then
        match parseStringBody fuel rest [] with
        | some (s, r) => some (Json.str s, r)
        | none => none
      else if c == lbrace then
        match skipWs rest with
        | c2 :: rest2 =>
          if c2 == rbrace then some (Json.obj [], rest2)
          else
            match parseMembers fuel (skipWs rest) with
            | some (ms, r) => some (Json.obj ms, r)
            | none => none
        | [] => none
      else if c == '[' then
        match skipWs rest with
        | c2 :: rest2 =>
          if c2 == ']' then some (Json.arr [], rest2)
          else
            match parseItems fuel (skipWs rest) with
            | some (its, r) => some (Json.arr its, r)
            | none => none
        | [] => none
      else if c == 't' then
        match rest with
        | 'r' :: 'u' :: 'e' :: r => some (Json.bool true, r)
        | _ => none
      else if c == 'f' then
        match rest with
        | 'a' :: 'l' :: 's' :: 'e' :: r => some (Json.bool false, r)
        | _ => none
      else if c == 'n' then
        match rest with
        | 'u' :: 'l' :: 'l' :: r => some (Json.null, r)
        | _ => none
      else if c == '-' ∨ isDigitCh c then parseNumber (c :: rest)
      else none

/-- Parse the members of a JSON object (at least one expected). -/
def parseMembers : Nat → List Char → Option (List (String × Json) × List Char)
  | 0, _ => none
  | fuel + 1, cs =>
    match skipWs cs with
    | [] => none
    | q :: rest =>
      if q == '"' then
        match parseStringBody fuel rest [] with
        | none => none
        | some (k, r1) =>
          match skipWs r1 with
          | ':' :: r2 =>
            match parseVal fuel r2 with
            | none => none
            | some (v, r3) =>
              match skipWs r3 with
              | ',' :: r4 =>
                match parseMembers fuel r4 with
                | some (ms, r5) => some ((k, v) :: ms, r5)
                | none => none
              | cb :: r4 =>
                if cb == rbrace then some ([(k, v)], r4) else none
              | [] => none
          | _ => none
      else none

/-- Parse the items of a JSON array (at least one expected). -/
def parseItems : Nat → List Char → Option (List Json × List Char)
  | 0, _ => none
  | fuel + 1, cs =>
    match parseVal fuel cs with
    | none => none
    | some (v, r1) =>
      match skipWs r1 with
      | ',' :: r2 =>
        match parseItems fuel r2 with
        | some (its, r3) => some (v :: its, r3)
        | none => none
      | ']' :: r2 => some ([v], r2)
      | _ => none

end

/-- `JSON.parse` on a character list: one value, then only whitespace. -/
def jsonParseChars (cs : List Char) : Option Json :=
  match parseVal (cs.length + 1) cs with
  | some (v, rest) => if skipWs rest = [] then some v else none
  | none => none

/-- `JSON.parse` on a string. -/
def jsonParse (s : String) : Option Json :=
  jsonParseChars s.data

/-! ## `parseFirstJson`

Source (identical in both shipped versions):

```
function parseFirstJson(s) {
  const match = s.match(/\{[\s\S]*\}/);
  if (!match) return;
  try { return JSON.parse(match[0]); } catch { return; }
}
```

The regex is greedy: the match, when it exists, is the substring starting
at the first opening brace and ending at the last closing brace of the
whole input. -/

/-- The substring matched by the greedy regex: from the first opening
brace through the last closing brace (`none` when no such span exists). -/
def regexSpanChars (cs : List Char) : Option (List Char) :=
  let fromFirst := cs.dropWhile (fun c => c != lbrace)
  let span := (fromFirst.reverse.dropWhile (fun c => c != rbrace)).reverse
  if span = [] then none else some span

/-- `parseFirstJson` on a character list. -/
def parseFirstJsonChars (cs : List Char) : Option Json :=
  match regexSpanChars cs with
  | some span => jsonParseChars span
  | none => none

/-- `parseFirstJson` from the source. -/
def parseFirstJson (s : String) : Option Json :=
  parseFirstJsonChars s.data

/-! ## Git repository state and the MergeEngine

The base repository checkout is modelled by the branch set, the currently
checked-out branch, a dirty-tree flag and a merge-in-progress flag.  The
outcome of merging a given source branch, and the exit code of each
attempt of a post-merge check command, come from an oracle (`MergeEnv`):
they depend on repository contents the embedding abstracts over.
Post-merge check commands are modelled as not mutating the working tree.
-/

structure GitState where
  branches : List String
  current : String
  dirty : Bool
  mergeInProgress : Bool
deriving DecidableEq, Repr

/-- Result of `git merge --no-ff <branch>` as far as the program can
observe it: a clean merge, or a conflict that aborts the command with a
non-zero exit and leaves conflict state behind. -/
inductive MergeOutcome where
  | clean : MergeOutcome
  | conflict : MergeOutcome
deriving DecidableEq, Repr

/-- Environment oracle for the MergeEngine: what merging each branch
does, and the exit code of each (1-based) attempt of each check. -/
structure MergeEnv where
  mergeRes : String → MergeOutcome
  checkExit : String → Nat → Nat

/-- `git checkout <b>`: fails during an in-progress merge or when the
branch does not exist; uncommitted changes are carried over. -/
def gitCheckout (gs : GitState) (b : String) : Option GitState :=
  if gs.mergeInProgress then none
  else if b ∈ gs.branches then some { gs with current := b }
  else none

/-- `git checkout -b <name> <base>`: fails when the name already exists
or the base does not. -/
def gitCheckoutNew (gs : GitState) (name base : String) : Option GitState :=
  if gs.mergeInProgress then none
  else if name ∈ gs.branches then none
  else if base ∈ gs.branches then
    some { gs with branches := name :: gs.branches, current := name }
  else none

/-- `git merge --no-ff <b>` under the oracle.  `Sum.inl` is the state
after a successful merge (the command exits 0); `Sum.inr` is the state
after a failure (nonexistent branch: no change; conflict: unmerged,
dirty state left behind). -/
def gitMergeNoFF (env : MergeEnv) (gs : GitState) (b : String) : GitState ⊕ GitState :=
  if gs.mergeInProgress then Sum.inr gs
  else if b ∈ gs.branches then
    if env.mergeRes b = MergeOutcome.clean then Sum.inl gs
    else Sum.inr { gs with mergeInProgress := true, dirty := true }
  else Sum.inr gs

/-- `git merge --abort`: only succeeds while a merge is in progress, and
restores a clean tree. -/
def gitMergeAbort (gs : GitState) : Option GitState :=
  if gs.mergeInProgress then some { gs with mergeInProgress := false, dirty := false }
  else none

def POST_MERGE_CHECK_ATTEMPTS : Nat := 3
def POST_MERGE_CHECK_BACKOFF_MS : Nat := 500
def DEFAULT_POST_MERGE_CHECKS : List String := ["bun test"]

/-- The retry loop of `runPostMergeCheckWithRetries`, started at
1-based attempt number `attempt` with `remaining` attempts left.
Returns the final exit code, the number of attempts actually run, and
the backoff waits (in ms) inserted between attempts. -/
def checkRetryGo (env : MergeEnv) (cmd : String) : Nat → Nat → Nat × Nat × List Nat
  | _, 0 => (1, 0, [])
  | attempt, remaining + 1 =>
    let e := env.checkExit cmd attempt
    if e = 0 then (0, 1, [])
    else if remaining = 0 then (e, 1, [])
    else
      let (e', used, waits) := checkRetryGo env cmd (attempt + 1) remaining
      (e', used + 1, attempt * POST_MERGE_CHECK_BACKOFF_MS :: waits)

/-- `runPostMergeCheckWithRetries` from the source: up to
`POST_MERGE_CHECK_ATTEMPTS` attempts, returning `0` on the first
success, waiting `attempt * POST_MERGE_CHECK_BACKOFF_MS` ms after each
failed non-final attempt, and the last exit code after the final one. -/
def runPostMergeCheckWithRetries (env : MergeEnv) (cmd : String) : Nat × Nat × List Nat :=
  checkRetryGo env cmd 1 POST_MERGE_CHECK_ATTEMPTS

/-- `applyMergePlan`'s result value. -/
structure ApplyResult where
  ok : Bool
  branch : Option String
  reason : Option String
  details : Option String
deriving DecidableEq, Repr

/-- Observable trace of an `applyMergePlan` run: branches for which a
merge was attempted (in order), and for each check that was started its
command, attempts used and backoff waits. -/
structure ApplyTrace where
  mergeAttempts : List String
  checkTrace : List (String × Nat × List Nat)
deriving DecidableEq, Repr

/-- The merge loop of `applyMergePlan`: merge each branch of `order`;
on the first failure abort the merge and return to `base` (both
best-effort, errors swallowed) and report the offending branch. -/
def mergeLoop (env : MergeEnv) (base : String) :
    GitState → List String → GitState × Option String × List String
  | gs, [] => (gs, none, [])
  | gs, b :: rest =>
    match gitMergeNoFF env gs b with
    | Sum.inl gs' =>
      let (gs'', failed, attempts) := mergeLoop env base gs' rest
      (gs'', failed, b :: attempts)
    | Sum.inr gs' =>
      let gsA := (gitMergeAbort gs').getD gs'
      let gsB := (gitCheckout gsA base).getD gsA
      (gsB, some b, [b])

/-- The validation loop of `applyMergePlan`: run each check with retries;
on a persistent failure return to `base` (best-effort) and report the
failing command and exit code. -/
def checksLoop (env : MergeEnv) (base : String) :
    GitState → List String → GitState × Option (String × Nat) × List (String × Nat × List Nat)
  | gs, [] => (gs, none, [])
  | gs, cmd :: rest =>
    let (exit, used, waits) := runPostMergeCheckWithRetries env cmd
    if exit = 0 then
      let (gs', failed, trace) := checksLoop env base gs rest
      (gs', failed, (cmd, used, waits) :: trace)
    else
      let gsB := (gitCheckout gs base).getD gs
      (gsB, some (cmd, exit), [(cmd, used, waits)])

/-- `applyMergePlan` from the source.  `mergeBranchName` stands for the
timestamped `ai-merge-…` name; `agentBranches` are the three worktree
branches (gemini, claude, codex) used for the default order;
`planOrder`/`planChecks` are the reviewer plan's optional fields. -/
def applyMergePlan (env : MergeEnv) (gs : GitState) (baseBranch mergeBranchName : String)
    (agentBranches : List String) (planOrder planChecks : Option (List String)) :
    GitState × ApplyResult × ApplyTrace :=
  match gitCheckout gs baseBranch with
  | none =>
    (gs, ⟨false, none, some "Failed to create merge branch", some "git checkout failed"⟩,
      ⟨[], []⟩)
  | some gs1 =>
    match gitCheckoutNew gs1 mergeBranchName baseBranch with
    | none =>
      (gs1, ⟨false, none, some "Failed to create merge branch", some "git checkout -b failed"⟩,
        ⟨[], []⟩)
    | some gs2 =>
      let order :=
        match planOrder with
        | some l => if l.length ≠ 0 then l else agentBranches
        | none => agentBranches
      let (gs3, mergeFailed, attempts) := mergeLoop env baseBranch gs2 order
      match mergeFailed with
      | some b =>
        (gs3, ⟨false, none, some ("Merge conflict with " ++ b), some "git merge failed"⟩,
          ⟨attempts, []⟩)
      | none =>
        let checks :=
          match planChecks with
          | some l => if l.length ≠ 0 then l else DEFAULT_POST_MERGE_CHECKS
          | none => DEFAULT_POST_MERGE_CHECKS
        let (gs4, checkFailed, ctrace) := checksLoop env baseBranch gs3 checks
        match checkFailed with
        | some (cmd, exit) =>
          (gs4, ⟨false, none, some ("Post-merge check failed (" ++ cmd ++ ")"),
            some ("Exit code " ++ toString exit)⟩, ⟨attempts, ctrace⟩)
        | none =>
          let gs5 := if gs4.dirty then { gs4 with dirty := false } else gs4
          (gs5, ⟨true, some mergeBranchName, none, none⟩, ⟨attempts, ctrace⟩)

/-! ## The `AgentRunner` supervision state machine

One `run()` invocation of a supervisor is modelled as a start transition
(`runStart`) followed by a sequence of asynchronous events (`AEvent`)
folded through a step function (`stepRunner`).  Clock comparisons made by
the heartbeat callback (`idleFor > this.idleTimeoutMs`,
`timeSinceSuccess > 2 * 60 * 1000`, the nudge window) arrive as the
booleans of the `heartbeat` event; the classification of an output line
(`raw.includes("Error executing tool")`, message type, `raw` containing
`"Error"`, commit detection) arrives as the booleans of the
`msgActivity` event.  `proc.kill()` has no immediate state effect: the
killed process surfaces later as a `procExit` event.

Once the run's promise is resolved (`settled.isSome`) the step function
is the identity: at that point the source has cleared the process handle
and stopped the heartbeat, so no further callback of this run fires. -/

def DEFAULT_AGENT_IDLE_TIMEOUT_MS : Nat := 7 * 60 * 1000
def AGENT_HEARTBEAT_INTERVAL_MS : Nat := 30000
def NUDGE_AFTER_MS : Nat := 3 * 60 * 1000
def MAX_CONSECUTIVE_ERRORS : Nat := 3
def MAX_AGENT_RESTARTS : Nat := 3
def INITIAL_AGENT_BACKOFF_MS : Nat := 2500
def MAX_AGENT_BACKOFF_MS : Nat := 2 * 60 * 1000
def REVIEWER_MAX_RETRIES : Nat := 3

/-- The supervisor's status field. -/
inductive RStatus where
  | idle | running | restarting | failed | completed
deriving DecidableEq, Repr

/-- `"success" | "dnf"` of an `AgentRunResult`. -/
inductive RunOutcome where
  | success | dnf
deriving DecidableEq, Repr

/-- The `AgentRunResult` a `run()` call resolves with. -/
structure AgentRunResultM where
  status : RunOutcome
  exitCode : Nat
  restarts : Nat
  reason : Option String
deriving DecidableEq, Repr

/-- The per-supervisor mutable state of `AgentRunner`, plus observable
histories (run records written by `recordDNF`, nudges sent, restart
delays used). -/
structure Runner where
  status : RStatus
  restarts : Nat
  backoffMs : Nat
  stopRequested : Bool
  globalTimeout : Bool
  consecutiveIdleRestarts : Nat
  consecutiveErrors : Nat
  statsErrors : Nat
  statsCommits : Nat
  nudges : Nat
  procAlive : Bool
  heartbeatOn : Bool
  pendingLaunch : Bool
  settled : Option AgentRunResultM
  lastError : Option String
  runRecords : List String
  restartDelays : List Nat
deriving DecidableEq, Repr

/-- Asynchronous events a running supervisor can observe. -/
inductive AEvent where
  /-- `launch()` spawned the agent process and started the heartbeat. -/
  | spawnOk
  /-- `launch()` threw while spawning. -/
  | spawnFail (msg : String)
  /-- The agent process exited with the given code. -/
  | procExit (code : Nat)
  /-- One output line was observed (`onActivity` + `onMessage`):
  whether it contains `"Error executing tool"`, whether the parsed
  message is a `tool_use`/`tool_result`, whether the raw line contains
  `"Error"`, and whether it indicates a `git commit`. -/
  | msgActivity (errorLine : Bool) (isToolMsg : Bool) (rawHasError : Bool) (isCommit : Bool)
  /-- A heartbeat tick: whether `timeSinceSuccess` exceeds 2 minutes,
  whether the nudge window is open, whether `idleFor` exceeds the idle
  timeout. -/
  | heartbeat (errLoopStale : Bool) (nudgeDue : Bool) (idleExceeded : Bool)
  /-- `terminate()` was called. -/
  | userTerminate
  /-- `notifyGlobalTimeout()` fired. -/
  | globalTimeoutFire
deriving DecidableEq, Repr

/-- `handleFailure(reason, exitCode)` from the source: restart with
doubled, capped backoff while budget remains and no stop/timeout was
requested; otherwise become `failed` and resolve the run as dnf. -/
def handleFailure (s : Runner) (reason : String) (exitCode : Nat) : Runner :=
  let s := { s with lastError := some reason }
  if s.restarts < MAX_AGENT_RESTARTS ∧ ¬s.stopRequested ∧ ¬s.globalTimeout then
    { s with
      restarts := s.restarts + 1
      status := RStatus.restarting
      restartDelays := s.restartDelays ++ [min s.backoffMs MAX_AGENT_BACKOFF_MS]
      backoffMs := min (s.backoffMs * 2) MAX_AGENT_BACKOFF_MS
      pendingLaunch := true }
  else
    { s with
      status := RStatus.failed
      settled := some ⟨RunOutcome.dnf, exitCode, s.restarts, some reason⟩ }

/-- `handleExit(exitCode)` from the source. -/
def handleExit (s : Runner) (code : Nat) : Runner :=
  let s := { s with heartbeatOn := false, procAlive := false }
  if s.stopRequested then
    { s with
      status := RStatus.idle
      settled := some ⟨RunOutcome.dnf, code, s.restarts, some "Stopped manually"⟩
      stopRequested := false }
  else if s.globalTimeout then
    { s with
      status := RStatus.failed
      settled := some ⟨RunOutcome.dnf, code, s.restarts, some "Global timeout reached"⟩ }
  else if code = 0 then
    { s with
      status := RStatus.completed
      settled := some ⟨RunOutcome.success, code, s.restarts, none⟩ }
  else
    handleFailure s ("exit code " ++ toString code) code

/-- One asynchronous event processed by the supervisor. -/
def stepRunner (s : Runner) (e : AEvent) : Runner :=
  if s.settled.isSome then s else
  match e with
  | AEvent.spawnOk =>
    if s.pendingLaunch then
      { s with
        pendingLaunch := false
        procAlive := true
        heartbeatOn := true
        status := RStatus.running }
    else s
  | AEvent.spawnFail msg =>
    if s.pendingLaunch then
      handleFailure { s with pendingLaunch := false } ("spawn failed: " ++ msg) 1
    else s
  | AEvent.procExit code =>
    if s.procAlive then handleExit s code else s
  | AEvent.msgActivity errorLine isToolMsg rawHasError isCommit =>
    let s := { s with consecutiveIdleRestarts := 0 }
    let s :=
      if errorLine then
        { s with
          consecutiveErrors := s.consecutiveErrors + 1
          statsErrors := s.statsErrors + 1 }
      else if isToolMsg ∧ ¬rawHasError then
        { s with consecutiveErrors := 0 }
      else s
    if isCommit then { s with statsCommits := s.statsCommits + 1 } else s
  | AEvent.heartbeat errLoopStale nudgeDue idleExceeded =>
    if ¬(s.heartbeatOn ∧ s.procAlive) then s
    else if s.consecutiveErrors ≥ MAX_CONSECUTIVE_ERRORS ∧ errLoopStale then
      { s with
        heartbeatOn := false
        stopRequested := true
        runRecords := s.runRecords ++ ["Agent stuck in error loop"] }
    else
      let s := if nudgeDue then { s with nudges := s.nudges + 1 } else s
      if idleExceeded then
        let s := { s with consecutiveIdleRestarts := s.consecutiveIdleRestarts + 1 }
        if s.consecutiveIdleRestarts ≥ 2 then
          { s with
            heartbeatOn := false
            stopRequested := true
            runRecords := s.runRecords ++ ["Agent stuck/unresponsive"] }
        else s
      else s
  | AEvent.userTerminate =>
    if s.procAlive then { s with stopRequested := true } else s
  | AEvent.globalTimeoutFire =>
    { s with globalTimeout := true }

/-- The freshly constructed supervisor. -/
def initialRunner : Runner where
  status := RStatus.idle
  restarts := 0
  backoffMs := INITIAL_AGENT_BACKOFF_MS
  stopRequested := false
  globalTimeout := false
  consecutiveIdleRestarts := 0
  consecutiveErrors := 0
  statsErrors := 0
  statsCommits := 0
  nudges := 0
  procAlive := false
  heartbeatOn := false
  pendingLaunch := false
  settled := none
  lastError := none
  runRecords := []
  restartDelays := []

/-- `run(task)` from the source: throws (`none`) when already
running/restarting, otherwise resets the per-run state and schedules the
first launch. -/
def runStart (s : Runner) : Option Runner :=
  if s.status = RStatus.running ∨ s.status = RStatus.restarting then none
  else
    some { s with
      restarts := 0
      backoffMs := INITIAL_AGENT_BACKOFF_MS
      stopRequested := false
      globalTimeout := false
      lastError := none
      status := RStatus.running
      settled := none
      pendingLaunch := true }

/-- Fold a sequence of asynchronous events through the supervisor. -/
def runEvents (s : Runner) (es : List AEvent) : Runner :=
  es.foldl stepRunner s

/-! ## The review round `doReview`

The reviewer decision is duck-typed in the source (the parsed JSON value
is used directly), so the embedding keeps it as a `Json` value and gives
field access the `JSON.parse` semantics (later duplicate keys win).  The
outcome of each reviewer invocation is an oracle: either the
`Promise.race` against the 5-minute timeout rejected, or the process
completed with an exit code and combined stdout. -/

/-- Property access on a parsed JSON value (duplicate keys: last wins,
as in `JSON.parse`). -/
def jsonField (j : Json) (k : String) : Option Json :=
  match j with
  | Json.obj ms => ms.foldl (fun acc m => if m.1 = k then some m.2 else acc) none
  | _ => none

/-- `decision.k === v` for a string literal `v`. -/
def strFieldIs (j : Json) (k v : String) : Bool :=
  match jsonField j k with
  | some (Json.str s) => s = v
  | _ => false

/-- A string field rendered the way a template literal would (only the
string and `undefined` cases are exercised by the program's messages;
the rendering of other value shapes is approximate). -/
def jsDisplayField (j : Json) (k : String) : String :=
  match jsonField j k with
  | some (Json.str s) => s
  | some (Json.bool true) => "true"
  | some (Json.bool false) => "false"
  | some Json.null => "null"
  | some (Json.num m e) => toString m ++ "e" ++ toString e
  | some (Json.arr _) => "object"
  | some (Json.obj _) => "object"
  | none => "undefined"

/-- Extract an all-string JSON array field (the shapes
`mergePlan.order` / `mergePlan.postMergeChecks` take in a well-formed
decision). -/
def jsonStringArray : Json → Option (List String)
  | Json.arr items =>
    items.foldr
      (fun it acc =>
        match it, acc with
        | Json.str s, some l => some (s :: l)
        | _, _ => none)
      (some [])
  | _ => none

/-- `decision.mergePlan?.order` as a string list, when present. -/
def planOrderOf (j : Json) : Option (List String) :=
  (jsonField j "mergePlan").bind (fun mp => (jsonField mp "order").bind jsonStringArray)

/-- `decision.mergePlan?.postMergeChecks` as a string list, when present. -/
def planChecksOf (j : Json) : Option (List String) :=
  (jsonField j "mergePlan").bind
    (fun mp => (jsonField mp "postMergeChecks").bind jsonStringArray)

/-- The observable outcome of one reviewer invocation. -/
inductive ReviewAttempt where
  /-- The `Promise.race` against the reviewer timeout rejected. -/
  | failedRace (msg : String)
  /-- The reviewer process completed with this exit code and stdout. -/
  | completed (exitCode : Nat) (stdout : String)

/-- Result of re-running one supervisor on a revision request. -/
structure RevRunResult where
  success : Bool
  reason : Option String
deriving DecidableEq, Repr

/-- The three possible results of `doReview`. -/
inductive ReviewOutcome where
  | approved (mergeBranch : String)
  | revisions
  | dnf (reason : String) (details : Option String)
deriving DecidableEq, Repr

/-- Observable trace of a review round: how often the reviewer process
was invoked and which agents got revision work dispatched (in order). -/
structure ReviewTrace where
  reviewerInvocations : Nat
  dispatchedAgents : List String
deriving DecidableEq, Repr

/-- Oracles for a review round. -/
structure ReviewEnv where
  /-- Outcome of the 1-based n-th reviewer invocation. -/
  attempts : Nat → ReviewAttempt
  /-- MergeEngine oracle. -/
  merge : MergeEnv
  /-- Outcome of the 0-based n-th dispatched revision run. -/
  revRun : Nat → RevRunResult

/-- `runRevisionRequests` from the source: dispatch each listed revision
to its agent sequentially; the first failed run aborts with a reason
naming the agent.  Returns the failure (if any) and the agents actually
dispatched. -/
def runRevisionRequests (revRun : Nat → RevRunResult) :
    Nat → List Json → Option (String × Option String) × List String
  | _, [] => (none, [])
  | i, rev :: rest =>
    let agentName := jsDisplayField rev "agent"
    let res := revRun i
    if res.success then
      let (failure, ds) := runRevisionRequests revRun (i + 1) rest
      (failure, agentName :: ds)
    else
      (some ("Agent " ++ agentName ++ " could not complete reviewer instructions",
        res.reason), [agentName])

/-- Add one reviewer invocation to a review result. -/
def bumpInvocation (r : ReviewOutcome × GitState × ReviewTrace) :
    ReviewOutcome × GitState × ReviewTrace :=
  (r.1, r.2.1, { r.2.2 with reviewerInvocations := r.2.2.reviewerInvocations + 1 })

/-- The retry loop of `doReview`: `remaining` attempts left, current
1-based attempt index, and the `lastError` accumulator.  A decision with
status `revise` whose `revisions` field is missing, not an array, or
empty takes the `"Reviewer requested revisions but none listed"` path
and consumes the attempt.  (A non-array truthy `revisions` value would
make the source iterate garbage; that shape is outside the decision
contract and not modelled.) -/
def doReviewGo (renv : ReviewEnv) (gs : GitState) (base mergeBranchName : String)
    (agentBranches : List String) :
    Nat → Nat → Option String → ReviewOutcome × GitState × ReviewTrace
  | 0, _, lastError =>
    (ReviewOutcome.dnf "Reviewer failed to converge" lastError, gs, ⟨0, []⟩)
  | remaining + 1, attempt, _ =>
    match renv.attempts attempt with
    | ReviewAttempt.failedRace msg =>
      bumpInvocation (doReviewGo renv gs base mergeBranchName agentBranches
        remaining (attempt + 1) (some ("Reviewer timeout or error: " ++ msg)))
    | ReviewAttempt.completed code out =>
      if code ≠ 0 then
        bumpInvocation (doReviewGo renv gs base mergeBranchName agentBranches
          remaining (attempt + 1) (some ("Reviewer exited with code " ++ toString code)))
      else
        match parseFirstJson out with
        | none =>
          bumpInvocation (doReviewGo renv gs base mergeBranchName agentBranches
            remaining (attempt + 1) (some "Reviewer did not emit valid JSON"))
        | some j =>
          if strFieldIs j "status" "approve" then
            let (gs', res, _) := applyMergePlan renv.merge gs base mergeBranchName
              agentBranches (planOrderOf j) (planChecksOf j)
            if res.ok then
              (ReviewOutcome.approved mergeBranchName, gs', ⟨1, []⟩)
            else
              (ReviewOutcome.dnf (res.reason.getD "") res.details, gs', ⟨1, []⟩)
          else if strFieldIs j "status" "revise" then
            match jsonField j "revisions" with
            | some (Json.arr revs) =>
              if revs.length = 0 then
                bumpInvocation (doReviewGo renv gs base mergeBranchName agentBranches
                  remaining (attempt + 1) (some "Reviewer requested revisions but none listed"))
              else
                let (failure, dispatched) := runRevisionRequests renv.revRun 0 revs
                match failure with
                | some (r, d) => (ReviewOutcome.dnf r d, gs, ⟨1, dispatched⟩)
                | none => (ReviewOutcome.revisions, gs, ⟨1, dispatched⟩)
            | _ =>
              bumpInvocation (doReviewGo renv gs base mergeBranchName agentBranches
                remaining (attempt + 1) (some "Reviewer requested revisions but none listed"))
          else
            bumpInvocation (doReviewGo renv gs base mergeBranchName agentBranches
              remaining (attempt + 1)
              (some ("Unknown reviewer status: " ++ jsDisplayField j "status")))

/-- `doReview` from the source: check out the base branch (a failure
there propagates as an exception, modelled as `none`), then run up to
`REVIEWER_MAX_RETRIES` reviewer attempts. -/
def doReview (renv : ReviewEnv) (gs : GitState) (base mergeBranchName : String)
    (agentBranches : List String) : Option (ReviewOutcome × GitState × ReviewTrace) :=
  match gitCheckout gs base with
  | none => none
  | some gs0 =>
    some (doReviewGo renv gs0 base mergeBranchName agentBranches REVIEWER_MAX_RETRIES 1 none)

/-! ## The post-agent gate of `main`

After the first concurrent agent runs resolve (or the round timeout
substitutes dnf results for still-running agents), `main` filters the
per-agent results; with no success it records an immediate dnf and never
invokes the reviewer, otherwise it enters the review loop, whose
`doReview` always receives all three worktree branches. -/

/-- The slice of an `AgentRunResult` the gate looks at. -/
structure AgentResultLite where
  success : Bool
  reason : Option String
deriving DecidableEq, Repr

/-- What the gate decides: whether the reviewer runs, which branches a
review round would receive, and the immediately recorded dnf reason (if
any). -/
structure GateOutcome where
  reviewerInvoked : Bool
  reviewBranches : List String
  dnfRecorded : Option String
deriving DecidableEq, Repr

/-- The post-agent gate of `main` (agent ids paired with their results,
and the three worktree branches). -/
def mainReviewGate (results : List (String × AgentResultLite))
    (geminiBranch claudeBranch codexBranch : String) : GateOutcome :=
  let successfulAgents := results.filter (fun r => r.2.success)
  if successfulAgents.isEmpty then
    { reviewerInvoked := false
      reviewBranches := []
      dnfRecorded := some "No agent completed the task" }
  else
    { reviewerInvoked := true
      reviewBranches := [geminiBranch, claudeBranch, codexBranch]
      dnfRecorded := none }

/-! ## Witness fixtures and invariants -/

/-- Concrete MergeEngine oracle for witnesses: branch "B" conflicts,
everything else merges cleanly, every check attempt exits 1. -/
def witnessMergeEnv : MergeEnv where
  mergeRes := fun b => if b = "B" then MergeOutcome.conflict else MergeOutcome.clean
  checkExit := fun _ _ => 1

/-- Concrete starting repository for witnesses. -/
def witnessGitState : GitState where
  branches := ["main", "A", "B", "C"]
  current := "main"
  dirty := false
  mergeInProgress := false

/-- The supervisor invariant: the restart budget is respected and a
`failed` status only occurs with a resolved run. -/
def RunnerInv (s : Runner) : Prop :=
  s.restarts ≤ MAX_AGENT_RESTARTS ∧ (s.status = RStatus.failed → s.settled.isSome)

/-- The state a fresh supervisor is in right after `run()` is called. -/
def startedRunner : Runner := (runStart initialRunner).getD initialRunner

/-- A run in which the agent process exits non-zero four times in a
row, exhausting the restart budget. -/
def budgetTrace : List AEvent :=
  [AEvent.spawnOk, AEvent.procExit 1, AEvent.spawnOk, AEvent.procExit 1,
   AEvent.spawnOk, AEvent.procExit 1, AEvent.spawnOk, AEvent.procExit 1]

/-- Trace refuting the claim's reading of idle handling: an idle
timeout, a restart, an unsuccessful activity line (a tool error), and a
second idle timeout. -/
def doubleIdleWithErrorTrace : List AEvent :=
  [AEvent.spawnOk, AEvent.heartbeat false false true, AEvent.procExit 143,
   AEvent.spawnOk, AEvent.msgActivity true false true false,
   AEvent.heartbeat false false true, AEvent.procExit 143]

/-- The supervisor state after three consecutive tool-error lines. -/
def errorLoopState : Runner :=
  runEvents startedRunner
    [AEvent.spawnOk, AEvent.msgActivity true false true false,
     AEvent.msgActivity true false true false, AEvent.msgActivity true false true false]

/-- The source's `!decision.revisions?.length` test restricted to the
decision contract: the `revisions` field is missing, not an array, or an
empty array. -/
def revisionsNoneListed (j : Json) : Bool :=
  match jsonField j "revisions" with
  | some (Json.arr revs) => revs.length = 0
  | _ => true

/-- Reviewer oracle for the retry-exhaustion witness: attempts 1 and 2
exit 2, attempt 3 exits 0 with unparseable output. -/
def witnessReviewEnvFail : ReviewEnv where
  attempts := fun i =>
    if i = 3 then ReviewAttempt.completed 0 "no json here"
    else ReviewAttempt.completed 2 "x"
  merge := witnessMergeEnv
  revRun := fun _ => ⟨true, none⟩

/-- Reviewer oracle for the empty-revisions witness: every attempt
succeeds with a decision requesting revisions but listing none. -/
def witnessReviewEnvRevise : ReviewEnv where
  attempts := fun _ =>
    ReviewAttempt.completed 0 "\x7b\"status\": \"revise\"\x7d"
  merge := witnessMergeEnv
  revRun := fun _ => ⟨true, none⟩

/-! ## Theorems -/

/-- Dropping over a prefix on which the predicate holds everywhere. -/
theorem dropWhile_append_all {α : Type} (P : α → Bool) (l₁ l₂ : List α)
    (h : ∀ a ∈ l₁, P a = true) :
    (l₁ ++ l₂).dropWhile P = l₂.dropWhile P := by
  induction l₁ with
  | nil => rfl
  | cons a t ih =>
    have ha : P a = true := h a (List.mem_cons_self a t)
    simpa [List.dropWhile_cons, ha] using ih (fun x hx => h x (List.mem_cons_of_mem a hx))

/-- C1 (amended): the post-agent gate of `main`: with zero first-run
successes the reviewer is never invoked and the run is immediately
recorded as did-not-finish ("No agent completed the task"); with at
least one success the review round proceeds, and the reviewer receives
all three agent worktree branches (a per-agent status summary, not
branch filtering, communicates which agents failed). -/
theorem mainReviewGate_behavior (results : List (String × AgentResultLite))
    (bg bc bx : String) :
    (results.filter (fun r => r.2.success) = [] →
      (mainReviewGate results bg bc bx).reviewerInvoked = false ∧
      (mainReviewGate results bg bc bx).dnfRecorded = some "No agent completed the task") ∧
    (results.filter (fun r => r.2.success) ≠ [] →
      (mainReviewGate results bg bc bx).reviewerInvoked = true ∧
      (mainReviewGate results bg bc bx).dnfRecorded = none ∧
      (mainReviewGate results bg bc bx).reviewBranches = [bg, bc, bx]) := by
  unfold mainReviewGate
  constructor
  · intro h
    simp [h]
  · intro h
    simp [List.isEmpty_iff, h]

/-- C1, refuted clause: with one successful and two failed agents the
review round proceeds, yet the branches handed to the reviewer are not
only those of agents with usable results — a failed agent's branch is
included, so the claim's "using only the branches of agents with usable
results" is false on the code. -/
theorem mainReviewGate_usable_branches_counterexample :
    (mainReviewGate
      [("gemini", ⟨true, none⟩), ("claude", ⟨false, some "boom"⟩), ("codex", ⟨false, none⟩)]
      "branch-g" "branch-c" "branch-x").reviewerInvoked = true ∧
    ([("gemini", (⟨true, none⟩ : AgentResultLite)),
        ("claude", ⟨false, some "boom"⟩), ("codex", ⟨false, none⟩)].filter
        (fun r => r.2.success)).length = 1 ∧
    (mainReviewGate
      [("gemini", ⟨true, none⟩), ("claude", ⟨false, some "boom"⟩), ("codex", ⟨false, none⟩)]
      "branch-g" "branch-c" "branch-x").reviewBranches ≠ ["branch-g"] ∧
    "branch-c" ∈ (mainReviewGate
      [("gemini", ⟨true, none⟩), ("claude", ⟨false, some "boom"⟩), ("codex", ⟨false, none⟩)]
      "branch-g" "branch-c" "branch-x").reviewBranches := by
  decide

/-- Witness for the gate theorem at a concrete result list with exactly
one successful agent. -/
theorem mainReviewGate_behavior_witness :
    ([("gemini", (⟨false, some "x"⟩ : AgentResultLite)), ("claude", ⟨true, none⟩),
        ("codex", ⟨false, none⟩)].filter (fun r => r.2.success) ≠ []) ∧
    (mainReviewGate
      [("gemini", ⟨false, some "x"⟩), ("claude", ⟨true, none⟩), ("codex", ⟨false, none⟩)]
      "bg" "bc" "bx").reviewerInvoked = true ∧
    (mainReviewGate
      [("gemini", ⟨false, some "x"⟩), ("claude", ⟨true, none⟩), ("codex", ⟨false, none⟩)]
      "bg" "bc" "bx").dnfRecorded = none ∧
    (mainReviewGate
      [("gemini", ⟨false, some "x"⟩), ("claude", ⟨true, none⟩), ("codex", ⟨false, none⟩)]
      "bg" "bc" "bx").reviewBranches = ["bg", "bc", "bx"] :=
  ⟨by decide,
    (mainReviewGate_behavior
      [("gemini", ⟨false, some "x"⟩), ("claude", ⟨true, none⟩), ("codex", ⟨false, none⟩)]
      "bg" "bc" "bx").2 (by decide)⟩

/-- A run of clean merges leaves the repository state untouched and
attempts every branch in order. -/
theorem mergeLoop_all_clean (env : MergeEnv) (base : String) :
    ∀ (order : List String) (gs : GitState),
      gs.mergeInProgress = false →
      (∀ b ∈ order, b ∈ gs.branches ∧ env.mergeRes b = MergeOutcome.clean) →
      mergeLoop env base gs order = (gs, none, order) := by
  intro order
  induction order with
  | nil => intro gs _ _; rfl
  | cons b rest ih =>
    intro gs hmip h
    have hb := h b (List.mem_cons_self b rest)
    have hrest := ih gs hmip (fun x hx => h x (List.mem_cons_of_mem b hx))
    unfold mergeLoop gitMergeNoFF
    simp [hmip, hb.1, hb.2, hrest]

/-- The merge loop on an order whose first `k` branches merge cleanly
and whose `k`-th conflicts: it attempts exactly the first `k + 1`
branches, reports the `k`-th, and ends on `base` with a clean tree. -/
theorem mergeLoop_conflict_at (env : MergeEnv) (base : String) :
    ∀ (order : List String) (k : Nat) (gs : GitState) (hk : k < order.length),
      gs.mergeInProgress = false → base ∈ gs.branches →
      (∀ b ∈ order, b ∈ gs.branches) →
      (∀ i (hi : i < k), env.mergeRes (order.get ⟨i, Nat.lt_trans hi hk⟩) = MergeOutcome.clean) →
      env.mergeRes (order.get ⟨k, hk⟩) = MergeOutcome.conflict →
      mergeLoop env base gs order =
        (⟨gs.branches, base, false, false⟩, some (order.get ⟨k, hk⟩), order.take (k + 1)) := by
  intro order
  induction order with
  | nil => intro k gs hk; exact absurd hk (by simp)
  | cons b rest ih =>
    intro k gs hk hmip hbase horder hpre hconf
    have hb : b ∈ gs.branches := horder b (List.mem_cons_self b rest)
    match k with
    | 0 =>
      have hcb : env.mergeRes b = MergeOutcome.conflict := hconf
      unfold mergeLoop gitMergeNoFF
      simp only [hmip, hb, hcb, if_false, if_true, ite_true, ite_false]
      simp [gitMergeAbort, gitCheckout, hbase, hcb]
    | j + 1 =>
      have hcleanb : env.mergeRes b = MergeOutcome.clean := hpre 0 (Nat.succ_pos j)
      have hkr : j < rest.length := Nat.lt_of_succ_lt_succ hk
      have hrest := ih j gs hkr hmip hbase
        (fun x hx => horder x (List.mem_cons_of_mem b hx))
        (fun i hi => hpre (i + 1) (Nat.succ_lt_succ hi))
        hconf
      unfold mergeLoop gitMergeNoFF
      simp [hmip, hb, hcleanb, hrest]

/-- C4: when the first `k` branches of the reviewer's order merge
cleanly and the `k`-th fails, `applyMergePlan` aborts that merge,
returns to the base branch with a clean tree, reports exactly the
`k`-th branch in its failure reason, and the attempted-merge trace is
exactly the first `k + 1` branches — nothing after the offender is
attempted. -/
theorem applyMergePlan_conflict_reports (env : MergeEnv) (gs : GitState)
    (base mbn : String) (ab order : List String) (k : Nat)
    (hmem : base ∈ gs.branches) (hdirty : gs.dirty = false)
    (hmip : gs.mergeInProgress = false) (hmbn : mbn ∉ gs.branches)
    (hk : k < order.length)
    (horder : ∀ b ∈ order, b ∈ gs.branches)
    (hpre : ∀ i (hi : i < k), env.mergeRes (order.get ⟨i, Nat.lt_trans hi hk⟩) = MergeOutcome.clean)
    (hconf : env.mergeRes (order.get ⟨k, hk⟩) = MergeOutcome.conflict) :
    applyMergePlan env gs base mbn ab (some order) none =
      (⟨mbn :: gs.branches, base, false, false⟩,
       ⟨false, none, some ("Merge conflict with " ++ order.get ⟨k, hk⟩), some "git merge failed"⟩,
       ⟨order.take (k + 1), []⟩) := by
  have hlen : ¬order.length = 0 := by omega
  have hco : gitCheckout gs base = some { gs with current := base } := by
    simp [gitCheckout, hmip, hmem]
  have hcnew : gitCheckoutNew { gs with current := base } mbn base =
      some (⟨mbn :: gs.branches, mbn, false, false⟩ : GitState) := by
    simp [gitCheckoutNew, hmip, hmbn, hmem, hdirty]
  have hml := mergeLoop_conflict_at env base order k
    (⟨mbn :: gs.branches, mbn, false, false⟩ : GitState) hk rfl
    (List.mem_cons_of_mem mbn hmem)
    (fun x hx => List.mem_cons_of_mem mbn (horder x hx)) hpre hconf
  unfold applyMergePlan
  simp only [hco, hcnew, ne_eq, hlen, not_false_eq_true, if_true, ite_true]
  simp only [hml]

/-- Witness for the conflict-reporting theorem: order `[A, B, C]` with
`B` unmergeable; `A` then `B` are attempted, `C` never is, and the
failure names `B` with the repository back on `main` and clean. -/
theorem applyMergePlan_conflict_reports_witness :
    witnessMergeEnv.mergeRes "B" = MergeOutcome.conflict ∧
    witnessMergeEnv.mergeRes "A" = MergeOutcome.clean ∧
    applyMergePlan witnessMergeEnv witnessGitState "main" "ai-merge-1" ["A", "B", "C"]
        (some ["A", "B", "C"]) none =
      (⟨["ai-merge-1", "main", "A", "B", "C"], "main", false, false⟩,
       ⟨false, none,
         some ("Merge conflict with " ++ (["A", "B", "C"].get ⟨1, by decide⟩)),
         some "git merge failed"⟩,
       ⟨["A", "B"], []⟩) :=
  ⟨rfl, rfl, by
    have h := applyMergePlan_conflict_reports witnessMergeEnv witnessGitState "main"
      "ai-merge-1" ["A", "B", "C"] ["A", "B", "C"] 1 (by decide) rfl rfl (by decide)
      (by decide) (by decide)
      (fun i hi => by
        have hi0 : i = 0 := by omega
        subst hi0
        rfl)
      rfl
    simpa using h⟩

/-- A check whose every attempt exits 1 is run exactly three times, with
linear backoff waits of 500 ms and 1000 ms between the attempts, and
ends with exit code 1. -/
theorem runPostMergeCheckWithRetries_all_fail (env : MergeEnv) (cmd : String)
    (hfail : ∀ a, env.checkExit cmd a = 1) :
    runPostMergeCheckWithRetries env cmd = (1, 3, [500, 1000]) := by
  have h3 : checkRetryGo env cmd 3 1 = (1, 1, []) := by
    simp [checkRetryGo, hfail]
  have h2 : checkRetryGo env cmd 2 2 = (1, 2, [1000]) := by
    rw [checkRetryGo]
    simp [hfail, h3, POST_MERGE_CHECK_BACKOFF_MS]
  have h1 : checkRetryGo env cmd 1 3 = (1, 3, [500, 1000]) := by
    rw [checkRetryGo]
    simp [hfail, h2, POST_MERGE_CHECK_BACKOFF_MS]
  simpa [runPostMergeCheckWithRetries, POST_MERGE_CHECK_ATTEMPTS] using h1

/-- C3: post-merge checks run sequentially with up to three attempts
each and +500 ms linear backoff; a check that always exits 1 is
attempted exactly three times, after which `applyMergePlan` abandons
the integration branch, returns to base, and reports that command and
exit code 1. -/
theorem applyMergePlan_check_retry_exhaustion (env : MergeEnv) (gs : GitState)
    (base mbn cmd : String) (ab : List String)
    (hmem : base ∈ gs.branches) (hdirty : gs.dirty = false)
    (hmip : gs.mergeInProgress = false) (hmbn : mbn ∉ gs.branches)
    (hclean : ∀ b ∈ ab, b ∈ gs.branches ∧ env.mergeRes b = MergeOutcome.clean)
    (hfail : ∀ a, env.checkExit cmd a = 1) :
    applyMergePlan env gs base mbn ab none (some [cmd]) =
      (⟨mbn :: gs.branches, base, false, false⟩,
       ⟨false, none, some ("Post-merge check failed (" ++ cmd ++ ")"), some "Exit code 1"⟩,
       ⟨ab, [(cmd, 3, [500, 1000])]⟩) := by
  have hco : gitCheckout gs base = some { gs with current := base } := by
    simp [gitCheckout, hmip, hmem]
  have hcnew : gitCheckoutNew { gs with current := base } mbn base =
      some (⟨mbn :: gs.branches, mbn, false, false⟩ : GitState) := by
    simp [gitCheckoutNew, hmip, hmbn, hmem, hdirty]
  have hml := mergeLoop_all_clean env base ab
    (⟨mbn :: gs.branches, mbn, false, false⟩ : GitState) rfl
    (fun b hb => ⟨List.mem_cons_of_mem mbn (hclean b hb).1, (hclean b hb).2⟩)
  have hrc := runPostMergeCheckWithRetries_all_fail env cmd hfail
  have hcheckout : gitCheckout (⟨mbn :: gs.branches, mbn, false, false⟩ : GitState) base =
      some (⟨mbn :: gs.branches, base, false, false⟩ : GitState) := by
    simp [gitCheckout, List.mem_cons_of_mem mbn hmem]
  unfold applyMergePlan
  simp only [hco, hcnew]
  simp only [hml]
  unfold checksLoop
  simp [hrc, hcheckout]
  rfl

/-- Witness for the check-retry theorem: default order over clean
branches, a single always-failing check `exit 1`. -/
theorem applyMergePlan_check_retry_exhaustion_witness :
    (∀ a, witnessMergeEnv.checkExit "exit 1" a = 1) ∧
    applyMergePlan witnessMergeEnv witnessGitState "main" "ai-merge-2" ["A", "C"]
        none (some ["exit 1"]) =
      (⟨["ai-merge-2", "main", "A", "B", "C"], "main", false, false⟩,
       ⟨false, none, some ("Post-merge check failed (" ++ "exit 1" ++ ")"),
         some "Exit code 1"⟩,
       ⟨["A", "C"], [("exit 1", 3, [500, 1000])]⟩) :=
  ⟨fun _ => rfl,
    applyMergePlan_check_retry_exhaustion witnessMergeEnv witnessGitState "main"
      "ai-merge-2" "exit 1" ["A", "C"] (by decide) rfl rfl (by decide)
      (by decide) (fun _ => rfl)⟩

/-- A successful `git merge --no-ff` leaves the modelled state
unchanged. -/
theorem gitMergeNoFF_inl_eq (env : MergeEnv) (gs : GitState) (b : String)
    (gs' : GitState) (h : gitMergeNoFF env gs b = Sum.inl gs') : gs' = gs := by
  unfold gitMergeNoFF at h
  split_ifs at h
  all_goals simp_all

/-- A failed `git merge --no-ff` either left the state unchanged
(refused merge) or left conflict state behind. -/
theorem gitMergeNoFF_inr_cases (env : MergeEnv) (gs : GitState) (b : String)
    (gs' : GitState) (h : gitMergeNoFF env gs b = Sum.inr gs') :
    gs' = gs ∨ gs' = { gs with mergeInProgress := true, dirty := true } := by
  unfold gitMergeNoFF at h
  split_ifs at h
  all_goals simp_all

/-- Shape of a successful `git checkout -b`. -/
theorem gitCheckoutNew_eq (gs : GitState) (name base : String) (gs' : GitState)
    (h : gitCheckoutNew gs name base = some gs') :
    gs' = { gs with branches := name :: gs.branches, current := name } := by
  unfold gitCheckoutNew at h
  split_ifs at h
  all_goals simp_all

/-- The merge loop either fails and ends on `base` with a clean
tree, or succeeds leaving the state untouched. -/
theorem mergeLoop_restores (env : MergeEnv) (base : String) :
    ∀ (order : List String) (gs : GitState),
      gs.mergeInProgress = false → gs.dirty = false → base ∈ gs.branches →
      ((mergeLoop env base gs order).2.1.isSome →
        (mergeLoop env base gs order).1 = ⟨gs.branches, base, false, false⟩) ∧
      ((mergeLoop env base gs order).2.1 = none →
        (mergeLoop env base gs order).1 = gs) := by
  intro order
  induction order with
  | nil =>
    intro gs _ _ _
    exact ⟨fun h => by simp [mergeLoop] at h, fun _ => rfl⟩
  | cons b rest ih =>
    intro gs hmip hdirty hbase
    unfold mergeLoop
    rcases hM : gitMergeNoFF env gs b with gs' | gs'
    · have hgs' : gs' = gs := gitMergeNoFF_inl_eq env gs b gs' hM
      cases hgs'
      simpa using ih _ hmip hdirty hbase
    · rcases gitMergeNoFF_inr_cases env gs b gs' hM with hgs' | hgs'

      · subst hgs'
        have habort : gitMergeAbort gs' = none := by
          simp [gitMergeAbort, hmip]
        have hcheckout : gitCheckout gs' base = some { gs' with current := base } := by
          simp [gitCheckout, hmip, hbase]
        refine ⟨fun _ => ?_, fun h => by simp at h⟩
        simp [habort, hcheckout, hdirty, hmip]
      · subst hgs'
        have habort :
            gitMergeAbort { gs with mergeInProgress := true, dirty := true } =
              some { gs with mergeInProgress := false, dirty := false } := by
          simp [gitMergeAbort]
        have hcheckout :
            gitCheckout { gs with mergeInProgress := false, dirty := false } base =
              some { gs with mergeInProgress := false, dirty := false, current := base } := by
          simp [gitCheckout, hbase]
        refine ⟨fun _ => ?_, fun h => by simp at h⟩
        simp [habort, hcheckout]

/-- The validation loop either fails and ends on `base` with a clean
tree, or succeeds leaving the state untouched. -/
theorem checksLoop_restores (env : MergeEnv) (base : String) :
    ∀ (checks : List String) (gs : GitState),
      gs.mergeInProgress = false → gs.dirty = false → base ∈ gs.branches →
      ((checksLoop env base gs checks).2.1.isSome →
        (checksLoop env base gs checks).1 = ⟨gs.branches, base, false, false⟩) ∧
      ((checksLoop env base gs checks).2.1 = none →
        (checksLoop env base gs checks).1 = gs) := by
  intro checks
  induction checks with
  | nil =>
    intro gs _ _ _
    exact ⟨fun h => by simp [checksLoop] at h, fun _ => rfl⟩
  | cons cmd rest ih =>
    intro gs hmip hdirty hbase
    unfold checksLoop
    rcases hE : runPostMergeCheckWithRetries env cmd with ⟨e, u, w⟩
    by_cases he : e = 0
    · subst he
      simpa using ih gs hmip hdirty hbase
    · have hcheckout : gitCheckout gs base = some { gs with current := base } := by
        simp [gitCheckout, hmip, hbase]
      refine ⟨fun _ => ?_, fun h => by simp [he] at h⟩
      simp [he, hcheckout, hdirty, hmip]

/-- C2: whenever `applyMergePlan` returns `ok:false` — branch-creation
failure, merge conflict, or persistent post-merge check failure — the
base branch is checked out and the working tree is clean, with no merge
in progress. -/
theorem applyMergePlan_failure_restores_base (env : MergeEnv) (gs : GitState)
    (base mbn : String) (ab : List String) (po pc : Option (List String))
    (hmem : base ∈ gs.branches) (hdirty : gs.dirty = false)
    (hmip : gs.mergeInProgress = false)
    (hok : (applyMergePlan env gs base mbn ab po pc).2.1.ok = false) :
    (applyMergePlan env gs base mbn ab po pc).1.current = base ∧
    (applyMergePlan env gs base mbn ab po pc).1.dirty = false ∧
    (applyMergePlan env gs base mbn ab po pc).1.mergeInProgress = false := by
  have hco : gitCheckout gs base = some { gs with current := base } := by
    simp [gitCheckout, hmip, hmem]
  unfold applyMergePlan at hok ⊢
  simp only [hco] at hok ⊢
  rcases hN : gitCheckoutNew { gs with current := base } mbn base with _ | gs2
  · simp only [hN] at hok ⊢
    exact ⟨trivial, hdirty, hmip⟩
  · simp only [hN] at hok ⊢
    have hgs2 : gs2 =
        { gs with branches := mbn :: gs.branches, current := mbn } :=
      gitCheckoutNew_eq _ mbn base gs2 hN
    have hmip2 : gs2.mergeInProgress = false := by rw [hgs2]; exact hmip
    have hdirty2 : gs2.dirty = false := by rw [hgs2]; exact hdirty
    have hbase2 : base ∈ gs2.branches := by
      rw [hgs2]; exact List.mem_cons_of_mem mbn hmem
    set ord := (match po with
      | some l => if l.length ≠ 0 then l else ab
      | none => ab) with hord
    set cks := (match pc with
      | some l => if l.length ≠ 0 then l else DEFAULT_POST_MERGE_CHECKS
      | none => DEFAULT_POST_MERGE_CHECKS) with hcks
    have hml := mergeLoop_restores env base ord gs2 hmip2 hdirty2 hbase2
    rcases hmf : (mergeLoop env base gs2 ord).2.1 with _ | b
    · have hgs3 : (mergeLoop env base gs2 ord).1 = gs2 := hml.2 hmf
      simp only [hmf, hgs3] at hok ⊢
      have hcl := checksLoop_restores env base cks gs2 hmip2 hdirty2 hbase2
      rcases hcf : (checksLoop env base gs2 cks).2.1 with _ | cx
      · simp only [hcf] at hok
        simp at hok
      · have hgs4 : (checksLoop env base gs2 cks).1 = ⟨gs2.branches, base, false, false⟩ :=
          hcl.1 (by simp [hcf])
        simp only [hcf, hgs4] at hok ⊢
        exact ⟨by trivial, by trivial, by trivial⟩
    · have hgs3 : (mergeLoop env base gs2 ord).1 = ⟨gs2.branches, base, false, false⟩ :=
        hml.1 (by simp [hmf])
      simp only [hmf, hgs3] at hok ⊢
      exact ⟨by trivial, by trivial, by trivial⟩

/-- Witness for the restoration theorem at the conflict scenario:
merging `B` conflicts, the result is `ok:false`, and the repository is
back on a clean `main`. -/
theorem applyMergePlan_failure_restores_base_witness :
    "main" ∈ witnessGitState.branches ∧
    (applyMergePlan witnessMergeEnv witnessGitState "main" "ai-merge-3" ["A", "B", "C"]
        (some ["B"]) none).2.1.ok = false ∧
    (applyMergePlan witnessMergeEnv witnessGitState "main" "ai-merge-3" ["A", "B", "C"]
        (some ["B"]) none).1.current = "main" ∧
    (applyMergePlan witnessMergeEnv witnessGitState "main" "ai-merge-3" ["A", "B", "C"]
        (some ["B"]) none).1.dirty = false ∧
    (applyMergePlan witnessMergeEnv witnessGitState "main" "ai-merge-3" ["A", "B", "C"]
        (some ["B"]) none).1.mergeInProgress = false :=
  ⟨by decide, by decide,
    applyMergePlan_failure_restores_base witnessMergeEnv witnessGitState "main"
      "ai-merge-3" ["A", "B", "C"] (some ["B"]) none (by decide) rfl rfl (by decide)⟩

/-- Once a run has resolved, no further event of that run is processed. -/
theorem stepRunner_settled_frozen (s : Runner) (e : AEvent)
    (h : s.settled.isSome = true) : stepRunner s e = s := by
  unfold stepRunner
  rw [if_pos h]

/-- Once a run has resolved, whole event sequences leave it unchanged. -/
theorem runEvents_settled_frozen (s : Runner) (es : List AEvent)
    (h : s.settled.isSome = true) : runEvents s es = s := by
  induction es with
  | nil => rfl
  | cons e t ih =>
    simp only [runEvents, List.foldl_cons, stepRunner_settled_frozen s e h]
    exact ih

/-- `handleFailure` preserves the supervisor invariant. -/
theorem handleFailure_inv (s : Runner) (r : String) (c : Nat)
    (h1 : s.restarts ≤ MAX_AGENT_RESTARTS) :
    (handleFailure s r c).restarts ≤ MAX_AGENT_RESTARTS ∧
    ((handleFailure s r c).status = RStatus.failed →
      (handleFailure s r c).settled.isSome) := by
  unfold handleFailure
  dsimp only
  split_ifs with hc
  · exact ⟨hc.1, fun hst => by simp at hst⟩
  · exact ⟨by simpa using h1, fun _ => by simp⟩

/-- `handleExit` preserves the supervisor invariant. -/
theorem handleExit_inv (s : Runner) (c : Nat)
    (h1 : s.restarts ≤ MAX_AGENT_RESTARTS) :
    (handleExit s c).restarts ≤ MAX_AGENT_RESTARTS ∧
    ((handleExit s c).status = RStatus.failed → (handleExit s c).settled.isSome) := by
  unfold handleExit
  dsimp only
  split_ifs with hstop hgt hzero
  · exact ⟨by simpa using h1, fun _ => by simp⟩
  · exact ⟨by simpa using h1, fun _ => by simp⟩
  · exact ⟨by simpa using h1, fun _ => by simp⟩
  · exact handleFailure_inv _ _ _ (by simpa using h1)

/-- Every event preserves the supervisor invariant. -/
theorem stepRunner_inv (s : Runner) (e : AEvent) (h : RunnerInv s) :
    RunnerInv (stepRunner s e) := by
  obtain ⟨h1, h2⟩ := h
  by_cases hs : s.settled.isSome = true
  · rw [stepRunner_settled_frozen s e hs]; exact ⟨h1, h2⟩
  · unfold RunnerInv stepRunner handleExit handleFailure
    cases e <;> dsimp only <;> split_ifs <;> constructor <;> simp_all <;> omega

/-- Event sequences preserve the supervisor invariant. -/
theorem runEvents_inv (s : Runner) (es : List AEvent) (h : RunnerInv s) :
    RunnerInv (runEvents s es) := by
  induction es generalizing s with
  | nil => exact h
  | cons e t ih =>
    simp only [runEvents, List.foldl_cons]
    exact ih _ (stepRunner_inv s e h)

/-- C6: within one `run()` invocation the restart count never exceeds
`MAX_AGENT_RESTARTS` (3), and once the status has become `failed`
(budget exhausted or terminal failure) it never transitions to any
other status for the remainder of that run. -/
theorem runner_restart_budget_terminal (s0 s1 : Runner) (es es' : List AEvent)
    (hstart : runStart s0 = some s1) :
    (runEvents s1 es).restarts ≤ MAX_AGENT_RESTARTS ∧
    ((runEvents s1 es).status = RStatus.failed →
      (runEvents (runEvents s1 es) es').status = RStatus.failed) := by
  have hinv1 : RunnerInv s1 := by
    unfold runStart at hstart
    split_ifs at hstart
    injection hstart with hs1
    rw [← hs1]
    exact ⟨Nat.zero_le _, fun hst => by simp at hst⟩
  have hinv2 : RunnerInv (runEvents s1 es) := runEvents_inv s1 es hinv1
  refine ⟨hinv2.1, fun hf => ?_⟩
  rw [runEvents_settled_frozen _ es' (hinv2.2 hf)]
  exact hf

/-- Witness for the restart-budget theorem: after four non-zero exits
the status is `failed` with exactly 3 restarts, and a further event
does not change the status. -/
theorem runner_restart_budget_terminal_witness :
    runStart initialRunner = some startedRunner ∧
    (runEvents startedRunner budgetTrace).status = RStatus.failed ∧
    (runEvents startedRunner budgetTrace).restarts ≤ MAX_AGENT_RESTARTS ∧
    (runEvents (runEvents startedRunner budgetTrace) [AEvent.procExit 0]).status =
      RStatus.failed :=
  ⟨by decide, by decide,
    (runner_restart_budget_terminal initialRunner startedRunner budgetTrace
      [AEvent.procExit 0] (by decide)).1,
    (runner_restart_budget_terminal initialRunner startedRunner budgetTrace
      [AEvent.procExit 0] (by decide)).2 (by decide)⟩

/-- Process spawn succeeded: the supervisor is running with the
heartbeat armed. -/
theorem stepRunner_spawnOk (s : Runner) (hset : s.settled = none)
    (hpl : s.pendingLaunch = true) :
    stepRunner s AEvent.spawnOk =
      { s with
        pendingLaunch := false
        procAlive := true
        heartbeatOn := true
        status := RStatus.running } := by
  unfold stepRunner
  rw [if_neg (by simp [hset])]
  dsimp only
  rw [if_pos hpl]

/-- Exit handling when a stop was requested: the run resolves as
did-not-finish ("Stopped manually") with no restart. -/
theorem stepRunner_exit_stopped (s : Runner) (c : Nat)
    (hset : s.settled = none) (halive : s.procAlive = true)
    (hstop : s.stopRequested = true) :
    stepRunner s (AEvent.procExit c) =
      { s with
        heartbeatOn := false
        procAlive := false
        status := RStatus.idle
        settled := some ⟨RunOutcome.dnf, c, s.restarts, some "Stopped manually"⟩
        stopRequested := false } := by
  unfold stepRunner handleExit
  rw [if_neg (by simp [hset])]
  dsimp only
  rw [if_pos halive]
  rw [if_pos hstop]

/-- Exit handling for an ordinary non-zero exit with restart budget
remaining: one restart is consumed and a relaunch is scheduled with
doubled, capped backoff. -/
theorem stepRunner_exit_restart (s : Runner) (c : Nat)
    (hset : s.settled = none) (halive : s.procAlive = true)
    (hstop : s.stopRequested = false) (hgt : s.globalTimeout = false)
    (hc : c ≠ 0) (hrest : s.restarts < MAX_AGENT_RESTARTS) :
    stepRunner s (AEvent.procExit c) =
      { s with
        heartbeatOn := false
        procAlive := false
        lastError := some ("exit code " ++ toString c)
        restarts := s.restarts + 1
        status := RStatus.restarting
        restartDelays := s.restartDelays ++ [min s.backoffMs MAX_AGENT_BACKOFF_MS]
        backoffMs := min (s.backoffMs * 2) MAX_AGENT_BACKOFF_MS
        pendingLaunch := true } := by
  unfold stepRunner handleExit handleFailure
  rw [if_neg (by simp [hset])]
  dsimp only
  rw [if_pos halive]
  rw [if_neg (by simp [hstop]), if_neg (by simp [hgt]), if_neg hc]
  rw [if_pos (by exact ⟨hrest, by simp [hstop], by simp [hgt]⟩)]

/-- A first idle-timeout (idle counter 0, no error loop): the process
is killed and only the idle counter advances — the ordinary restart
path will handle the resulting exit. -/
theorem stepRunner_heartbeat_idle_restart (s : Runner) (eS nD : Bool)
    (hset : s.settled = none) (halive : s.procAlive = true) (hhb : s.heartbeatOn = true)
    (hnotle : ¬MAX_CONSECUTIVE_ERRORS ≤ s.consecutiveErrors)
    (hcnt : s.consecutiveIdleRestarts = 0) :
    stepRunner s (AEvent.heartbeat eS nD true) =
      if nD then
        { s with consecutiveIdleRestarts := 1, nudges := s.nudges + 1 }
      else
        { s with consecutiveIdleRestarts := 1 } := by
  unfold stepRunner
  rw [if_neg (by simp [hset])]
  dsimp only
  rw [if_neg (by simp [hhb, halive]), if_neg (fun h => hnotle h.1)]
  cases nD
  · simp only [Bool.false_eq_true, ite_false, if_false, if_true]
    rw [if_neg (by simp [hcnt])]
    simp [hcnt]
  · simp only [ite_true, if_true]
    rw [if_neg (by simp [hcnt])]
    simp [hcnt]

/-- A second consecutive idle-timeout (idle counter already 1): the
heartbeat stops, a stop is requested so the coming exit will not
restart, and the "Agent stuck/unresponsive" run record is written. -/
theorem stepRunner_heartbeat_idle_giveup (s : Runner) (eS nD : Bool)
    (hset : s.settled = none) (halive : s.procAlive = true) (hhb : s.heartbeatOn = true)
    (hnotle : ¬MAX_CONSECUTIVE_ERRORS ≤ s.consecutiveErrors)
    (hcnt : s.consecutiveIdleRestarts = 1) :
    stepRunner s (AEvent.heartbeat eS nD true) =
      if nD then
        { s with
          nudges := s.nudges + 1
          consecutiveIdleRestarts := 2
          heartbeatOn := false
          stopRequested := true
          runRecords := s.runRecords ++ ["Agent stuck/unresponsive"] }
      else
        { s with
          consecutiveIdleRestarts := 2
          heartbeatOn := false
          stopRequested := true
          runRecords := s.runRecords ++ ["Agent stuck/unresponsive"] } := by
  unfold stepRunner
  rw [if_neg (by simp [hset])]
  dsimp only
  rw [if_neg (by simp [hhb, halive]), if_neg (fun h => hnotle h.1)]
  cases nD
  · simp only [Bool.false_eq_true, ite_false, if_false, if_true]
    rw [if_pos (by simp [hcnt])]
    simp [hcnt]
  · simp only [ite_true, if_true]
    rw [if_pos (by simp [hcnt])]
    simp [hcnt]

/-- The error-loop branch of the heartbeat: with the error threshold
reached and the success timestamp stale, the heartbeat stops, a stop is
requested, and the "Agent stuck in error loop" run record is written. -/
theorem stepRunner_heartbeat_errloop (s : Runner) (nD iE : Bool)
    (hset : s.settled = none) (halive : s.procAlive = true) (hhb : s.heartbeatOn = true)
    (herr : MAX_CONSECUTIVE_ERRORS ≤ s.consecutiveErrors) :
    stepRunner s (AEvent.heartbeat true nD iE) =
      { s with
        heartbeatOn := false
        stopRequested := true
        runRecords := s.runRecords ++ ["Agent stuck in error loop"] } := by
  unfold stepRunner
  rw [if_neg (by simp [hset])]
  dsimp only
  rw [if_neg (by simp [hhb, halive]), if_pos ⟨herr, rfl⟩]

/-- C7, refuted as stated: two idle-timeouts with no successful
activity in between — the only activity is a tool-error line — do not
cause permanent give-up.  Any observed output line resets the
consecutive-idle counter (`touch()`), so the supervisor restarts again:
afterwards it is `restarting` with a second restart consumed and a
relaunch scheduled, no run record written, and the run unresolved —
contradicting "permanent give-up with a recorded failure; a third
restart is never attempted". -/
theorem runner_double_idle_counterexample :
    (runEvents startedRunner doubleIdleWithErrorTrace).status = RStatus.restarting ∧
    (runEvents startedRunner doubleIdleWithErrorTrace).restarts = 2 ∧
    (runEvents startedRunner doubleIdleWithErrorTrace).pendingLaunch = true ∧
    (runEvents startedRunner doubleIdleWithErrorTrace).runRecords = [] ∧
    (runEvents startedRunner doubleIdleWithErrorTrace).settled = none := by
  decide

/-- C7 (amended): a first idle-timeout falls through to the ordinary
restart path; a second consecutive idle-timeout with no intervening
observed activity of any kind (any output line resets the idle counter)
causes permanent give-up: the run record "Agent stuck/unresponsive" is
written, the run resolves as did-not-finish ("Stopped manually" after
the restart-suppressing kill), and no further restart is attempted. -/
theorem runner_double_idle_gives_up (s : Runner) (c c' : Nat) (eS eS2 : Bool)
    (hset : s.settled = none) (halive : s.procAlive = true) (hhb : s.heartbeatOn = true)
    (hidle : s.consecutiveIdleRestarts = 0)
    (herr : s.consecutiveErrors < MAX_CONSECUTIVE_ERRORS)
    (hrest : s.restarts < MAX_AGENT_RESTARTS) (hstop : s.stopRequested = false)
    (hgt : s.globalTimeout = false) (hc : c ≠ 0) :
    (runEvents s [AEvent.heartbeat eS false true, AEvent.procExit c]).status =
      RStatus.restarting ∧
    (runEvents s [AEvent.heartbeat eS false true, AEvent.procExit c]).restarts =
      s.restarts + 1 ∧
    (runEvents s [AEvent.heartbeat eS false true, AEvent.procExit c]).settled = none ∧
    (runEvents s [AEvent.heartbeat eS false true, AEvent.procExit c, AEvent.spawnOk,
        AEvent.heartbeat eS2 false true, AEvent.procExit c']).settled =
      some ⟨RunOutcome.dnf, c', s.restarts + 1, some "Stopped manually"⟩ ∧
    (runEvents s [AEvent.heartbeat eS false true, AEvent.procExit c, AEvent.spawnOk,
        AEvent.heartbeat eS2 false true, AEvent.procExit c']).runRecords =
      s.runRecords ++ ["Agent stuck/unresponsive"] ∧
    (runEvents s [AEvent.heartbeat eS false true, AEvent.procExit c, AEvent.spawnOk,
        AEvent.heartbeat eS2 false true, AEvent.procExit c']).status = RStatus.idle ∧
    (runEvents s [AEvent.heartbeat eS false true, AEvent.procExit c, AEvent.spawnOk,
        AEvent.heartbeat eS2 false true, AEvent.procExit c']).pendingLaunch = false ∧
    (runEvents s [AEvent.heartbeat eS false true, AEvent.procExit c, AEvent.spawnOk,
        AEvent.heartbeat eS2 false true, AEvent.procExit c']).restarts = s.restarts + 1 := by
  have hnotle : ¬MAX_CONSECUTIVE_ERRORS ≤ s.consecutiveErrors := Nat.not_le.mpr herr
  have h1 : stepRunner s (AEvent.heartbeat eS false true) =
      { s with consecutiveIdleRestarts := 1 } := by
    rw [stepRunner_heartbeat_idle_restart s eS false hset halive hhb hnotle hidle]
    simp
  have h2 : stepRunner { s with consecutiveIdleRestarts := 1 } (AEvent.procExit c) =
      { s with
        consecutiveIdleRestarts := 1
        heartbeatOn := false
        procAlive := false
        lastError := some ("exit code " ++ toString c)
        restarts := s.restarts + 1
        status := RStatus.restarting
        restartDelays := s.restartDelays ++ [min s.backoffMs MAX_AGENT_BACKOFF_MS]
        backoffMs := min (s.backoffMs * 2) MAX_AGENT_BACKOFF_MS
        pendingLaunch := true } :=
    stepRunner_exit_restart _ c hset halive hstop hgt hc hrest
  have h3 : stepRunner
      { s with
        consecutiveIdleRestarts := 1
        heartbeatOn := false
        procAlive := false
        lastError := some ("exit code " ++ toString c)
        restarts := s.restarts + 1
        status := RStatus.restarting
        restartDelays := s.restartDelays ++ [min s.backoffMs MAX_AGENT_BACKOFF_MS]
        backoffMs := min (s.backoffMs * 2) MAX_AGENT_BACKOFF_MS
        pendingLaunch := true } AEvent.spawnOk =
      { s with
        consecutiveIdleRestarts := 1
        lastError := some ("exit code " ++ toString c)
        restarts := s.restarts + 1
        restartDelays := s.restartDelays ++ [min s.backoffMs MAX_AGENT_BACKOFF_MS]
        backoffMs := min (s.backoffMs * 2) MAX_AGENT_BACKOFF_MS
        pendingLaunch := false
        procAlive := true
        heartbeatOn := true
        status := RStatus.running } :=
    stepRunner_spawnOk _ hset rfl
  have h4 : stepRunner
      { s with
        consecutiveIdleRestarts := 1
        lastError := some ("exit code " ++ toString c)
        restarts := s.restarts + 1
        restartDelays := s.restartDelays ++ [min s.backoffMs MAX_AGENT_BACKOFF_MS]
        backoffMs := min (s.backoffMs * 2) MAX_AGENT_BACKOFF_MS
        pendingLaunch := false
        procAlive := true
        heartbeatOn := true
        status := RStatus.running } (AEvent.heartbeat eS2 false true) =
      { s with
        lastError := some ("exit code " ++ toString c)
        restarts := s.restarts + 1
        restartDelays := s.restartDelays ++ [min s.backoffMs MAX_AGENT_BACKOFF_MS]
        backoffMs := min (s.backoffMs * 2) MAX_AGENT_BACKOFF_MS
        pendingLaunch := false
        procAlive := true
        status := RStatus.running
        consecutiveIdleRestarts := 2
        heartbeatOn := false
        stopRequested := true
        runRecords := s.runRecords ++ ["Agent stuck/unresponsive"] } := by
    rw [stepRunner_heartbeat_idle_giveup
      { s with
        consecutiveIdleRestarts := 1
        lastError := some ("exit code " ++ toString c)
        restarts := s.restarts + 1
        restartDelays := s.restartDelays ++ [min s.backoffMs MAX_AGENT_BACKOFF_MS]
        backoffMs := min (s.backoffMs * 2) MAX_AGENT_BACKOFF_MS
        pendingLaunch := false
        procAlive := true
        heartbeatOn := true
        status := RStatus.running } eS2 false hset rfl rfl hnotle rfl]
    simp
  have h5 : stepRunner
      { s with
        lastError := some ("exit code " ++ toString c)
        restarts := s.restarts + 1
        restartDelays := s.restartDelays ++ [min s.backoffMs MAX_AGENT_BACKOFF_MS]
        backoffMs := min (s.backoffMs * 2) MAX_AGENT_BACKOFF_MS
        pendingLaunch := false
        procAlive := true
        status := RStatus.running
        consecutiveIdleRestarts := 2
        heartbeatOn := false
        stopRequested := true
        runRecords := s.runRecords ++ ["Agent stuck/unresponsive"] }
      (AEvent.procExit c') =
      { s with
        lastError := some ("exit code " ++ toString c)
        restarts := s.restarts + 1
        restartDelays := s.restartDelays ++ [min s.backoffMs MAX_AGENT_BACKOFF_MS]
        backoffMs := min (s.backoffMs * 2) MAX_AGENT_BACKOFF_MS
        pendingLaunch := false
        consecutiveIdleRestarts := 2
        runRecords := s.runRecords ++ ["Agent stuck/unresponsive"]
        heartbeatOn := false
        procAlive := false
        status := RStatus.idle
        settled := some ⟨RunOutcome.dnf, c', s.restarts + 1, some "Stopped manually"⟩
        stopRequested := false } :=
    stepRunner_exit_stopped _ c' hset rfl rfl
  refine ⟨?_, ?_, ?_, ?_, ?_, ?_, ?_, ?_⟩ <;>
    · simp only [runEvents, List.foldl_cons, List.foldl_nil, h1, h2, h3, h4, h5]
      first
        | rfl
        | exact hset
        | skip

/-- Witness for the double-idle give-up theorem at the freshly started
supervisor. -/
theorem runner_double_idle_gives_up_witness :
    startedRunner.settled = none ∧
    (runEvents startedRunner [AEvent.spawnOk]).procAlive = true ∧
    (runEvents (runEvents startedRunner [AEvent.spawnOk])
        [AEvent.heartbeat false false true, AEvent.procExit 143, AEvent.spawnOk,
          AEvent.heartbeat false false true, AEvent.procExit 143]).settled =
      some ⟨RunOutcome.dnf, 143, (runEvents startedRunner [AEvent.spawnOk]).restarts + 1,
        some "Stopped manually"⟩ ∧
    (runEvents (runEvents startedRunner [AEvent.spawnOk])
        [AEvent.heartbeat false false true, AEvent.procExit 143, AEvent.spawnOk,
          AEvent.heartbeat false false true, AEvent.procExit 143]).runRecords =
      (runEvents startedRunner [AEvent.spawnOk]).runRecords ++
        ["Agent stuck/unresponsive"] ∧
    (runEvents (runEvents startedRunner [AEvent.spawnOk])
        [AEvent.heartbeat false false true, AEvent.procExit 143, AEvent.spawnOk,
          AEvent.heartbeat false false true, AEvent.procExit 143]).pendingLaunch = false :=
  ⟨by decide, by decide,
    (runner_double_idle_gives_up (runEvents startedRunner [AEvent.spawnOk]) 143 143
      false false (by decide) (by decide) (by decide) (by decide)
      (by decide) (by decide) (by decide) (by decide) (by decide)).2.2.2.1,
    (runner_double_idle_gives_up (runEvents startedRunner [AEvent.spawnOk]) 143 143
      false false (by decide) (by decide) (by decide) (by decide)
      (by decide) (by decide) (by decide) (by decide) (by decide)).2.2.2.2.1,
    (runner_double_idle_gives_up (runEvents startedRunner [AEvent.spawnOk]) 143 143
      false false (by decide) (by decide) (by decide) (by decide)
      (by decide) (by decide) (by decide) (by decide) (by decide)).2.2.2.2.2.2.1⟩

/-- C8: with three or more consecutive tool-use errors on record and no
successful action for two minutes (the heartbeat's staleness check),
the heartbeat kills the process with restart suppressed and writes the
"Agent stuck in error loop" run record; the subsequent exit resolves
the run as did-not-finish with no restart consumed, no relaunch
scheduled, and a terminal (non-restarting) status. -/
theorem runner_error_loop_kills_without_restart (s : Runner) (nD iE : Bool) (c : Nat)
    (hset : s.settled = none) (halive : s.procAlive = true) (hhb : s.heartbeatOn = true)
    (herr : MAX_CONSECUTIVE_ERRORS ≤ s.consecutiveErrors)
    (hpl : s.pendingLaunch = false) :
    (stepRunner s (AEvent.heartbeat true nD iE)).stopRequested = true ∧
    (stepRunner s (AEvent.heartbeat true nD iE)).heartbeatOn = false ∧
    (stepRunner s (AEvent.heartbeat true nD iE)).runRecords =
      s.runRecords ++ ["Agent stuck in error loop"] ∧
    (stepRunner (stepRunner s (AEvent.heartbeat true nD iE)) (AEvent.procExit c)).settled =
      some ⟨RunOutcome.dnf, c, s.restarts, some "Stopped manually"⟩ ∧
    (stepRunner (stepRunner s (AEvent.heartbeat true nD iE)) (AEvent.procExit c)).restarts =
      s.restarts ∧
    (stepRunner (stepRunner s (AEvent.heartbeat true nD iE)) (AEvent.procExit c)).pendingLaunch =
      false ∧
    (stepRunner (stepRunner s (AEvent.heartbeat true nD iE)) (AEvent.procExit c)).status =
      RStatus.idle := by
  have h1 := stepRunner_heartbeat_errloop s nD iE hset halive hhb herr
  have h2 : stepRunner
      { s with
        heartbeatOn := false
        stopRequested := true
        runRecords := s.runRecords ++ ["Agent stuck in error loop"] }
      (AEvent.procExit c) =
      { s with
        runRecords := s.runRecords ++ ["Agent stuck in error loop"]
        heartbeatOn := false
        procAlive := false
        status := RStatus.idle
        settled := some ⟨RunOutcome.dnf, c, s.restarts, some "Stopped manually"⟩
        stopRequested := false } :=
    stepRunner_exit_stopped _ c hset halive rfl
  refine ⟨?_, ?_, ?_, ?_, ?_, ?_, ?_⟩ <;>
    · simp only [h1, h2]
      first
        | rfl
        | exact hpl
        | skip

/-- Witness for the error-loop theorem at a state reached by three
consecutive tool-error lines. -/
theorem runner_error_loop_kills_without_restart_witness :
    MAX_CONSECUTIVE_ERRORS ≤ errorLoopState.consecutiveErrors ∧
    (stepRunner (stepRunner errorLoopState (AEvent.heartbeat true false false))
        (AEvent.procExit 143)).settled =
      some ⟨RunOutcome.dnf, 143, errorLoopState.restarts, some "Stopped manually"⟩ ∧
    (stepRunner errorLoopState (AEvent.heartbeat true false false)).runRecords =
      errorLoopState.runRecords ++ ["Agent stuck in error loop"] ∧
    (stepRunner (stepRunner errorLoopState (AEvent.heartbeat true false false))
        (AEvent.procExit 143)).status = RStatus.idle :=
  ⟨by decide,
    (runner_error_loop_kills_without_restart errorLoopState false false 143 (by decide)
      (by decide) (by decide) (by decide) (by decide)).2.2.2.1,
    (runner_error_loop_kills_without_restart errorLoopState false false 143 (by decide)
      (by decide) (by decide) (by decide) (by decide)).2.2.1,
    (runner_error_loop_kills_without_restart errorLoopState false false 143 (by decide)
      (by decide) (by decide) (by decide) (by decide)).2.2.2.2.2.2⟩

/-- C5, refuted: the decision extraction is not "the first parseable
JSON object with surrounding prose discarded": the greedy regex spans
from the first opening brace to the last closing brace, so appending
brace-containing prose after a perfectly parseable object flips the
extraction from that object to nothing. -/
theorem parseFirstJson_counterexample :
    parseFirstJson "\x7b\"a\":1\x7d" = some (Json.obj [("a", Json.num 1 0)]) ∧
    parseFirstJson "\x7b\"a\":1\x7d and \x7d" = none := by
  exact ⟨rfl, rfl⟩

/-- C5 (amended): the decision used is `JSON.parse` of the substring
from the first opening brace to the last closing brace of the combined
output; prose outside that span is discarded, so surrounding text
containing no opening brace before and no closing brace after the
object does not change what is extracted. -/
theorem parseFirstJson_brace_free_prose (p mid q : List Char)
    (hp : lbrace ∉ p) (hq : rbrace ∉ q) :
    parseFirstJsonChars (p ++ (lbrace :: (mid ++ [rbrace])) ++ q) =
      jsonParseChars (lbrace :: (mid ++ [rbrace])) := by
  unfold parseFirstJsonChars regexSpanChars
  have hpAll : ∀ a ∈ p, (a != lbrace) = true := by
    intro a ha
    exact bne_iff_ne.mpr (fun hEq => hp (hEq ▸ ha))
  have hqAll : ∀ a ∈ q.reverse, (a != rbrace) = true := by
    intro a ha
    exact bne_iff_ne.mpr (fun hEq => hq (hEq ▸ (List.mem_reverse.mp ha)))
  have h1 : (p ++ (lbrace :: (mid ++ [rbrace])) ++ q).dropWhile (fun c => c != lbrace) =
      lbrace :: (mid ++ [rbrace] ++ q) := by
    rw [List.append_assoc, dropWhile_append_all _ p _ hpAll]
    simp [List.dropWhile_cons]
  rw [h1]
  have h2 : (lbrace :: (mid ++ [rbrace] ++ q)).reverse =
      q.reverse ++ ((rbrace :: mid.reverse) ++ [lbrace]) := by
    simp
  simp only [h2,
    dropWhile_append_all (fun c => c != rbrace) q.reverse
      ((rbrace :: mid.reverse) ++ [lbrace]) hqAll]
  simp [List.dropWhile_cons]

/-- Witness for the brace-free-prose theorem at concrete prose and a
concrete decision object. -/
theorem parseFirstJson_brace_free_prose_witness :
    (lbrace ∉ ['n', 'o', 't', 'e', ':', ' ']) ∧
    (rbrace ∉ [' ', 'd', 'o', 'n', 'e']) ∧
    parseFirstJsonChars
      (['n', 'o', 't', 'e', ':', ' '] ++
        (lbrace :: (['"', 'a', '"', ':', '1'] ++ [rbrace])) ++ [' ', 'd', 'o', 'n', 'e']) =
      jsonParseChars (lbrace :: (['"', 'a', '"', ':', '1'] ++ [rbrace])) :=
  ⟨by decide, by decide,
    parseFirstJson_brace_free_prose ['n', 'o', 't', 'e', ':', ' ']
      ['"', 'a', '"', ':', '1'] [' ', 'd', 'o', 'n', 'e'] (by decide) (by decide)⟩

/-- A string field equal to one literal differs from any other. -/
theorem strFieldIs_unique (j : Json) (k v v' : String) (h : strFieldIs j k v = true)
    (hne : v' ≠ v) : strFieldIs j k v' = false := by
  unfold strFieldIs at h ⊢
  rcases hf : jsonField j k with _ | jv
  · simp [hf] at h
  · cases jv <;> simp_all
    exact fun hv => hne hv.symm

/-- One reviewer attempt that exits non-zero or produces no parseable
decision consumes a retry and records the corresponding error. -/
theorem doReviewGo_failed_attempt (renv : ReviewEnv) (gs : GitState)
    (base mbn : String) (ab : List String) (rem att : Nat) (le : Option String)
    (c : Nat) (o : String)
    (hat : renv.attempts att = ReviewAttempt.completed c o)
    (hbad : c ≠ 0 ∨ parseFirstJson o = none) :
    doReviewGo renv gs base mbn ab (rem + 1) att le =
      bumpInvocation (doReviewGo renv gs base mbn ab rem (att + 1)
        (some (if c ≠ 0 then "Reviewer exited with code " ++ toString c
               else "Reviewer did not emit valid JSON"))) := by
  rcases hbad with hc | ho
  · conv_lhs => rw [doReviewGo]
    rw [hat]
    simp only [if_pos hc]
  · by_cases hc : c ≠ 0
    · conv_lhs => rw [doReviewGo]
      rw [hat]
      simp only [if_pos hc]
    · conv_lhs => rw [doReviewGo]
      rw [hat]
      simp only [if_neg hc, ho]

/-- One reviewer attempt whose decision is `revise` with no revisions
listed consumes a retry with the "none listed" error and dispatches
nothing. -/
theorem doReviewGo_revise_none_listed (renv : ReviewEnv) (gs : GitState)
    (base mbn : String) (ab : List String) (rem att : Nat) (le : Option String)
    (o : String) (j : Json)
    (hat : renv.attempts att = ReviewAttempt.completed 0 o)
    (hj : parseFirstJson o = some j)
    (hrev : strFieldIs j "status" "revise" = true)
    (hnone : revisionsNoneListed j = true) :
    doReviewGo renv gs base mbn ab (rem + 1) att le =
      bumpInvocation (doReviewGo renv gs base mbn ab rem (att + 1)
        (some "Reviewer requested revisions but none listed")) := by
  have happ : strFieldIs j "status" "approve" = false :=
    strFieldIs_unique j "status" "revise" "approve" hrev (by decide)
  conv_lhs => rw [doReviewGo]
  rw [hat]
  simp only [ne_eq, not_true, if_neg, hj]
  rw [if_neg (by simp), if_neg (by simp [happ]), if_pos (by simp [hrev])]
  unfold revisionsNoneListed at hnone
  rcases hf : jsonField j "revisions" with _ | jv
  · rfl
  · rw [hf] at hnone
    cases jv <;> simp_all
/-- C9: the reviewer invocation is retried up to 3 times on non-zero
exit or failure to extract a decision object; when all three attempts
fail that way, the round returns did-not-finish carrying the error of
the last attempt, with exactly three reviewer invocations and no
revision work dispatched. -/
theorem doReview_retries_exhausted (renv : ReviewEnv) (gs : GitState)
    (base mbn : String) (ab : List String)
    (c1 c2 c3 : Nat) (o1 o2 o3 : String)
    (hmem : base ∈ gs.branches) (hmip : gs.mergeInProgress = false)
    (h1 : renv.attempts 1 = ReviewAttempt.completed c1 o1)
    (h2 : renv.attempts 2 = ReviewAttempt.completed c2 o2)
    (h3 : renv.attempts 3 = ReviewAttempt.completed c3 o3)
    (hb1 : c1 ≠ 0 ∨ parseFirstJson o1 = none)
    (hb2 : c2 ≠ 0 ∨ parseFirstJson o2 = none)
    (hb3 : c3 ≠ 0 ∨ parseFirstJson o3 = none) :
    doReview renv gs base mbn ab =
      some (ReviewOutcome.dnf "Reviewer failed to converge"
          (some (if c3 ≠ 0 then "Reviewer exited with code " ++ toString c3
                 else "Reviewer did not emit valid JSON")),
        { gs with current := base },
        ⟨3, []⟩) := by
  have hco : gitCheckout gs base = some { gs with current := base } := by
    simp [gitCheckout, hmip, hmem]
  have e1 : doReviewGo renv { gs with current := base } base mbn ab 3 1 none =
      bumpInvocation (doReviewGo renv { gs with current := base } base mbn ab 2 2
        (some (if c1 ≠ 0 then "Reviewer exited with code " ++ toString c1
               else "Reviewer did not emit valid JSON"))) :=
    doReviewGo_failed_attempt renv { gs with current := base } base mbn ab 2 1 none
      c1 o1 h1 hb1
  have e2 : doReviewGo renv { gs with current := base } base mbn ab 2 2
        (some (if c1 ≠ 0 then "Reviewer exited with code " ++ toString c1
               else "Reviewer did not emit valid JSON")) =
      bumpInvocation (doReviewGo renv { gs with current := base } base mbn ab 1 3
        (some (if c2 ≠ 0 then "Reviewer exited with code " ++ toString c2
               else "Reviewer did not emit valid JSON"))) :=
    doReviewGo_failed_attempt renv { gs with current := base } base mbn ab 1 2 _
      c2 o2 h2 hb2
  have e3 : doReviewGo renv { gs with current := base } base mbn ab 1 3
        (some (if c2 ≠ 0 then "Reviewer exited with code " ++ toString c2
               else "Reviewer did not emit valid JSON")) =
      bumpInvocation (doReviewGo renv { gs with current := base } base mbn ab 0 4
        (some (if c3 ≠ 0 then "Reviewer exited with code " ++ toString c3
               else "Reviewer did not emit valid JSON"))) :=
    doReviewGo_failed_attempt renv { gs with current := base } base mbn ab 0 3 _
      c3 o3 h3 hb3
  unfold doReview
  rw [hco]
  show some (doReviewGo renv { gs with current := base } base mbn ab 3 1 none) = _
  rw [e1, e2, e3]
  rfl

/-- C10: a `revise` decision with a missing or empty revisions list is
not returned as revisions-issued and dispatches no revision work; it
counts as a failed attempt against the 3 reviewer retries, and when
every attempt produces such a decision the round ends did-not-finish
with "Reviewer requested revisions but none listed". -/
theorem doReview_empty_revisions_dnf (renv : ReviewEnv) (gs : GitState)
    (base mbn : String) (ab : List String) (o1 o2 o3 : String) (j1 j2 j3 : Json)
    (hmem : base ∈ gs.branches) (hmip : gs.mergeInProgress = false)
    (h1 : renv.attempts 1 = ReviewAttempt.completed 0 o1)
    (h2 : renv.attempts 2 = ReviewAttempt.completed 0 o2)
    (h3 : renv.attempts 3 = ReviewAttempt.completed 0 o3)
    (hj1 : parseFirstJson o1 = some j1) (hj2 : parseFirstJson o2 = some j2)
    (hj3 : parseFirstJson o3 = some j3)
    (hr1 : strFieldIs j1 "status" "revise" = true)
    (hr2 : strFieldIs j2 "status" "revise" = true)
    (hr3 : strFieldIs j3 "status" "revise" = true)
    (hn1 : revisionsNoneListed j1 = true) (hn2 : revisionsNoneListed j2 = true)
    (hn3 : revisionsNoneListed j3 = true) :
    doReview renv gs base mbn ab =
      some (ReviewOutcome.dnf "Reviewer failed to converge"
          (some "Reviewer requested revisions but none listed"),
        { gs with current := base },
        ⟨3, []⟩) := by
  have hco : gitCheckout gs base = some { gs with current := base } := by
    simp [gitCheckout, hmip, hmem]
  have e1 : doReviewGo renv { gs with current := base } base mbn ab 3 1 none =
      bumpInvocation (doReviewGo renv { gs with current := base } base mbn ab 2 2
        (some "Reviewer requested revisions but none listed")) :=
    doReviewGo_revise_none_listed renv { gs with current := base } base mbn ab 2 1 none
      o1 j1 h1 hj1 hr1 hn1
  have e2 : doReviewGo renv { gs with current := base } base mbn ab 2 2
        (some "Reviewer requested revisions but none listed") =
      bumpInvocation (doReviewGo renv { gs with current := base } base mbn ab 1 3
        (some "Reviewer requested revisions but none listed")) :=
    doReviewGo_revise_none_listed renv { gs with current := base } base mbn ab 1 2 _
      o2 j2 h2 hj2 hr2 hn2
  have e3 : doReviewGo renv { gs with current := base } base mbn ab 1 3
        (some "Reviewer requested revisions but none listed") =
      bumpInvocation (doReviewGo renv { gs with current := base } base mbn ab 0 4
        (some "Reviewer requested revisions but none listed")) :=
    doReviewGo_revise_none_listed renv { gs with current := base } base mbn ab 0 3 _
      o3 j3 h3 hj3 hr3 hn3
  unfold doReview
  rw [hco]
  show some (doReviewGo renv { gs with current := base } base mbn ab 3 1 none) = _
  rw [e1, e2, e3]
  rfl

/-- Witness for the retry-exhaustion theorem. -/
theorem doReview_retries_exhausted_witness :
    witnessReviewEnvFail.attempts 1 = ReviewAttempt.completed 2 "x" ∧
    parseFirstJson "no json here" = none ∧
    doReview witnessReviewEnvFail witnessGitState "main" "ai-merge-4" ["A", "C"] =
      some (ReviewOutcome.dnf "Reviewer failed to converge"
          (some (if (0 : Nat) ≠ 0 then "Reviewer exited with code " ++ toString (0 : Nat)
                 else "Reviewer did not emit valid JSON")),
        { witnessGitState with current := "main" }, ⟨3, []⟩) :=
  ⟨rfl, rfl,
    doReview_retries_exhausted witnessReviewEnvFail witnessGitState "main" "ai-merge-4"
      ["A", "C"] 2 2 0 "x" "x" "no json here" (by decide) rfl rfl rfl rfl
      (Or.inl (by decide)) (Or.inl (by decide)) (Or.inr rfl)⟩

/-- Witness for the empty-revisions theorem. -/
theorem doReview_empty_revisions_dnf_witness :
    parseFirstJson "\x7b\"status\": \"revise\"\x7d" =
      some (Json.obj [("status", Json.str "revise")]) ∧
    doReview witnessReviewEnvRevise witnessGitState "main" "ai-merge-5" ["A", "C"] =
      some (ReviewOutcome.dnf "Reviewer failed to converge"
          (some "Reviewer requested revisions but none listed"),
        { witnessGitState with current := "main" }, ⟨3, []⟩) :=
  ⟨rfl,
    doReview_empty_revisions_dnf witnessReviewEnvRevise witnessGitState "main"
      "ai-merge-5" ["A", "C"]
      "\x7b\"status\": \"revise\"\x7d" "\x7b\"status\": \"revise\"\x7d"
      "\x7b\"status\": \"revise\"\x7d"
      (Json.obj [("status", Json.str "revise")])
      (Json.obj [("status", Json.str "revise")])
      (Json.obj [("status", Json.str "revise")])
      (by decide) rfl rfl rfl rfl rfl rfl rfl rfl rfl rfl rfl rfl rfl⟩


end GitGang
